import Mathlib

/-!
Shallow embedding of the Pillbot prior-authorization pipeline
(src/src/services/form_filler_service.py, src/src/services/data_store.py,
src/src/services/llm_service.py, src/src/orchestrator.py) and proofs of the
specification claims about it.

Python values that flow through the form filler are modelled by the tagged
variant `PyVal`; Python machine floats used for confidence scores and rates
are modelled by exact rationals (the concrete constants 0.8, 0.7, 1.1 and
two-decimal rounding do not distinguish the two models on the values the
code produces).  Fallible Python code is modelled with `Except String`.
-/

/-- Model of a Python value as it appears in extracted-entity dictionaries,
form data and schema JSON: None, str, int, bool or list.  Fractional
numeric literals arriving from JSON are modelled as strings (which is how
the pipeline's entity values such as "9.5%" actually arrive). -/
inductive PyVal where
  | none : PyVal
  | str (s : String) : PyVal
  | int (n : Int) : PyVal
  | bool (b : Bool) : PyVal
  | list (xs : List PyVal) : PyVal

mutual

/-- Python repr() of a value, used when str() renders a list. -/
def pyRepr : PyVal → String
  | .none => "None"
  | .str s => "\x27" ++ s ++ "\x27"
  | .int n => toString n
  | .bool true => "True"
  | .bool false => "False"
  | .list xs => "[" ++ pyReprList xs ++ "]"

/-- Comma-separated repr of list elements. -/
def pyReprList : List PyVal → String
  | [] => ""
  | [x] => pyRepr x
  | x :: y :: rest => pyRepr x ++ ", " ++ pyReprList (y :: rest)

end

/-- Python str() of a value. -/
def pyStr : PyVal → String
  | .str s => s
  | v => pyRepr v

/-- Python truthiness of a value: None, "", 0, False and [] are falsy. -/
def pyTruthy : PyVal → Bool
  | .none => false
  | .str s => s ≠ ""
  | .int n => n ≠ 0
  | .bool b => b
  | .list xs => !xs.isEmpty

/-- Value of a decimal digit list (most significant first). -/
def digitsToNat (cs : List Char) : Nat :=
  cs.foldl (fun a c => a * 10 + (c.toNat - 48)) 0

/-- Python float() on a stripped decimal string: optional sign, then digits
with an optional fractional part (exponent forms are beyond what the rule
engine's inputs use and are not modelled). -/
def parsePyNum (s : String) : Option ℚ :=
  let cs := s.trim.toList
  let signed : ℚ × List Char :=
    match cs with
    | '-' :: rest => (-1, rest)
    | '+' :: rest => (1, rest)
    | _ => (1, cs)
  let sign := signed.1
  let body := signed.2
  let intPart := body.takeWhile Char.isDigit
  let rest := body.dropWhile Char.isDigit
  match rest with
  | [] =>
    if intPart.isEmpty then Option.none
    else Option.some (sign * (digitsToNat intPart : ℚ))
  | '.' :: frac =>
    if frac.all Char.isDigit && !(intPart.isEmpty && frac.isEmpty) then
      Option.some (sign * ((digitsToNat intPart : ℚ) +
        (digitsToNat frac : ℚ) / ((10 : ℚ) ^ frac.length)))
    else Option.none
  | _ => Option.none

/-- Nearest integer to a rational, ties to the even integer (Python round()
banker's rounding). -/
def roundHalfEven (q : ℚ) : ℤ :=
  let f := ⌊q⌋
  let frac := q - f
  if frac < 1/2 then f
  else if 1/2 < frac then f + 1
  else if f % 2 = 0 then f else f + 1

/-- Python round(x, 2): round to two decimal places, ties to even. -/
def round2 (q : ℚ) : ℚ :=
  (roundHalfEven (q * 100) : ℚ) / 100

/-- Lookup in an association list modelling a Python dict. -/
def dictGet {κ α : Type} [DecidableEq κ] (d : List (κ × α)) (k : κ) : Option α :=
  (d.find? (fun p => p.1 = k)).map Prod.snd

/-- Python dict key-overwrite-or-append update (insertion order kept). -/
def dictSet {κ α : Type} [DecidableEq κ] (d : List (κ × α)) (k : κ) (v : α) :
    List (κ × α) :=
  if (d.find? (fun p => p.1 = k)).isSome then
    d.map (fun p => if p.1 = k then (k, v) else p)
  else d ++ [(k, v)]

/-- Python `k in dict` membership test. -/
def dictHas {κ α : Type} [DecidableEq κ] (d : List (κ × α)) (k : κ) : Bool :=
  (d.find? (fun p => p.1 = k)).isSome

/-! ## Form filler service (src/src/services/form_filler_service.py)

The schema JSON is embedded as typed structures; a key that the code probes
with `in` or `.get` is an `Option` field (`Option.none` = key absent).  The
two boundary collaborators that the rule engine consults — the `re` module
and the Gemini reasoning service together with `_format_llm_prompt`, whose
output is consumed only by that service — are abstracted as an
`ExternalOracle` record of pure functions. -/

/-- The `validation` block of a field mapping. -/
structure Validation where
  vtype : Option String
  min_length : Option Nat
  max_length : Option Nat
  pattern : Option String

/-- One entry of `field_mappings`.  `required` and `data_type` model the
`.get` defaults False and "string"; `transformations` keeps each
transformation's `type` string (the only key the code reads). -/
structure FieldMapping where
  source_field : Option String
  required : Bool
  data_type : String
  transformations : Option (List String)
  validation : Option Validation
  default_value : Option PyVal

/-- The `condition` dict of a simple rule. -/
structure Condition where
  ctype : Option String
  field : Option String
  value : PyVal

/-- One action of a conditional rule. -/
structure RuleAction where
  atype : Option String
  field : Option String
  value : PyVal
  confidence : Option ℚ
  note : Option String

/-- A simple conditional rule. -/
structure SimpleRule where
  condition : Option Condition
  actions : Option (List RuleAction)

/-- The `llm_inference` dict of a complex rule. -/
structure LLMInference where
  prompt : Option String
  context_fields : List String
  result_field : Option String
  expected_result : Option String

/-- A complex inference rule. -/
structure ComplexRule where
  llm_inference : Option LLMInference
  actions : Option (List RuleAction)

/-- The `conditional_rules` dict (each list models the `.get(_, [])`). -/
structure ConditionalRules where
  simple_rules : List SimpleRule
  complex_inference_rules : List ComplexRule

/-- One section of `form_structure`. -/
structure FormSection where
  title : Option String
  fields : List String

/-- The `form_structure` dict. -/
structure FormStructure where
  sections : List (String × FormSection)

/-- A form schema as consumed by `populate_form`. -/
structure FormSchema where
  schema_name : Option String
  schema_version : Option String
  field_mappings : Option (List (String × FieldMapping))
  form_structure : Option FormStructure
  conditional_rules : Option ConditionalRules

/-- One populated entry of `form_data`. -/
structure FieldData where
  value : PyVal
  source : String
  confidence : ℚ
  required : Bool
  data_type : String
  conditional_requirement : Bool
  conditional_value : Bool

/-- The `conditional_logic` counters of the form metadata. -/
structure ConditionalMeta where
  rules_evaluated : Nat
  rules_triggered : Nat
  llm_inferences : Nat
  conditional_requirements_added : Nat
  conditional_values_set : Nat

/-- The `form_metadata` block of a populated form. -/
structure FormMetadata where
  schema_name : String
  schema_version : String
  population_timestamp : String
  populated_fields_count : Nat
  total_fields_count : Nat
  missing_fields : List String
  confidence_scores : List (String × ℚ)
  completion_rate : ℚ
  conditional_logic : Option ConditionalMeta
  conditional_notes : Option (List String)

/-- A populated section produced by `_apply_form_structure`. -/
structure StructuredSection where
  title : String
  fields : List (String × FieldData)
  populated_fields : Nat
  total_fields : Nat

/-- The `PopulatedForm` returned by `populate_form`. -/
structure PopulatedForm where
  form_metadata : FormMetadata
  form_data : List (String × FieldData)
  form_sections : Option (List (String × StructuredSection))

/-- External collaborators of the rule engine, abstracted as pure
functions: the `re` module, `check_llm_availability`, and
`extract_entities_with_gemini` composed with `_format_llm_prompt` (whose
formatted prompt is consumed only by that call); `llmInfer` receives the
prompt template and context data and yields extracted entities or a raised
service error. -/
structure ExternalOracle where
  reMatch : String → String → Bool
  reSearch : String → String → Bool
  llmAvailable : Bool
  llmInfer : String → List (String × PyVal) → Except String (List (String × PyVal))

/-- The transformation loop of `_apply_transformations`: uppercase,
lowercase and trim act on strings, extract_first takes the head of a
non-empty list, format_date and unknown transforms are no-ops. -/
def applyTransformations (v : PyVal) (ts : List String) : PyVal :=
  ts.foldl (fun v t =>
    if t = "uppercase" then
      match v with
      | PyVal.str s => PyVal.str s.toUpper
      | v => v
    else if t = "lowercase" then
      match v with
      | PyVal.str s => PyVal.str s.toLower
      | v => v
    else if t = "trim" then
      match v with
      | PyVal.str s => PyVal.str s.trim
      | v => v
    else if t = "extract_first" then
      match v with
      | PyVal.list (x :: _) => x
      | v => v
    else v) v

/-- The `_validate_field_value` check: expected type, string length bounds
(a bound of 0 is Python-falsy and therefore skipped, as in the source), and
regex pattern via `re.match`.  A Python bool passes the "number" check
because bool subclasses int. -/
def validateFieldValue (o : ExternalOracle) (v : PyVal) (vc : Validation) : Bool :=
  let typeOk :=
    match vc.vtype with
    | Option.some "string" =>
      match v with
      | PyVal.str _ => true
      | _ => false
    | Option.some "number" =>
      match v with
      | PyVal.int _ => true
      | PyVal.bool _ => true
      | _ => false
    | _ => true
  if !typeOk then false
  else
    let lenOk :=
      match v with
      | PyVal.str s =>
        (match vc.min_length with
         | Option.some m => decide (m = 0 ∨ m ≤ s.length)
         | Option.none => true) &&
        (match vc.max_length with
         | Option.some m => decide (m = 0 ∨ s.length ≤ m)
         | Option.none => true)
      | _ => true
    if !lenOk then false
    else
      match vc.pattern, v with
      | Option.some p, PyVal.str s => if p = "" then true else o.reMatch p s
      | _, _ => true

/-- True when `_calculate_field_confidence` short-circuits to 0.0: a string
whose strip() is empty. -/
def isBlankStr : PyVal → Bool
  | PyVal.str s => s.trim.length = 0
  | _ => false

/-- True for a non-empty string shorter than 3 characters after strip(). -/
def isShortStr : PyVal → Bool
  | PyVal.str s => 0 < s.trim.length && s.trim.length < 3
  | _ => false

/-- The `_calculate_field_confidence` heuristic: base 0.8, times 0.7 for a
short non-empty string, times 1.1 capped at 1.0 when a validation block is
present and passes, rounded to two decimals; 0.0 for a blank string. -/
def calculateFieldConfidence (o : ExternalOracle) (v : PyVal)
    (m : FieldMapping) : ℚ :=
  if isBlankStr v then 0
  else
    let base : ℚ := if isShortStr v then 8/10 * (7/10) else 8/10
    let base :=
      match m.validation with
      | Option.some vc =>
        if validateFieldValue o v vc then min 1 (base * (11/10)) else base
      | Option.none => base
    round2 base

/-- The `if value is None or value == ""` test guarding default
substitution. -/
def isNoneOrEmptyStr : PyVal → Bool
  | PyVal.none => true
  | PyVal.str s => s = ""
  | _ => false

/-- Default substitution: `default_value` replaces a None or empty-string
value when the default itself is not None. -/
def substituteDefault (v : PyVal) (dflt : Option PyVal) : PyVal :=
  if isNoneOrEmptyStr v then
    match dflt with
    | Option.some PyVal.none => v
    | Option.some d => d
    | Option.none => v
  else v

/-- The entity lookup and transformation prelude of `_populate_field`:
`extracted_entities.get(source_field)` followed by the transformation
pass, which runs only on a non-None value. -/
def transformedEntityValue (entities : List (String × PyVal))
    (m : FieldMapping) (src : String) : PyVal :=
  match (dictGet entities src).getD PyVal.none, m.transformations with
  | PyVal.none, _ => PyVal.none
  | v, Option.some ts => applyTransformations v ts
  | v, Option.none => v

/-- The `_populate_field` pipeline: the `if not source_field` truthiness
guard (both a missing key and an empty-string source_field return
(None, 0.0) at once), entity lookup, transformations, validation (whose
failure returns (None, 0.0) before default substitution), default
substitution, confidence. -/
def populateField (o : ExternalOracle) (entities : List (String × PyVal))
    (m : FieldMapping) : PyVal × ℚ :=
  match m.source_field with
  | Option.none => (PyVal.none, 0)
  | Option.some src =>
    if src = "" then (PyVal.none, 0)
    else
      let v1 := transformedEntityValue entities m src
      let validationFailed :=
        match v1, m.validation with
        | PyVal.none, _ => false
        | v, Option.some vc => !validateFieldValue o v vc
        | _, Option.none => false
      if validationFailed then (PyVal.none, 0)
      else
        let v2 := substituteDefault v1 m.default_value
        (v2, calculateFieldConfidence o v2 m)

/-- The validation early-return condition of `_populate_field`: the
source_field is truthy, the transformed entity value is present
(non-None), and a validation block exists and rejects it, in which case
the value is discarded before default substitution. -/
def validationRejected (o : ExternalOracle)
    (entities : List (String × PyVal)) (m : FieldMapping) : Bool :=
  match m.source_field with
  | Option.none => false
  | Option.some src =>
    if src = "" then false
    else
      match transformedEntityValue entities m src, m.validation with
      | PyVal.none, _ => false
      | v, Option.some vc => !validateFieldValue o v vc
      | _, Option.none => false

/-- The `field_value is not None and field_value != ""` populated test of
the base-population loop. -/
def isPopulatedValue : PyVal → Bool
  | PyVal.none => false
  | PyVal.str s => s ≠ ""
  | _ => true

/-- The numeric coercion of `greater_than`/`less_than`: str(), remove every
% character, strip, then float(). -/
def numericOf (v : PyVal) : Option ℚ :=
  parsePyNum (((pyStr v).replace "%" "").trim)

/-- The `_evaluate_simple_rule` predicate over current form data.  A rule
without a condition dict behaves as the empty dict; a missing or falsy
condition field, or a field absent from form_data, yields False. -/
def evaluateSimpleRule (o : ExternalOracle) (rule : SimpleRule)
    (form_data : List (String × FieldData)) : Bool :=
  let condition := rule.condition.getD ⟨Option.none, Option.none, PyVal.none⟩
  let ctype := condition.ctype.getD "equals"
  let expected := condition.value
  match condition.field with
  | Option.none => false
  | Option.some f =>
    if f = "" then false
    else
      match dictGet form_data f with
      | Option.none => false
      | Option.some fd =>
        let actual := fd.value
        if ctype = "equals" then
          (pyStr actual).toLower = (pyStr expected).toLower
        else if ctype = "not_equals" then
          (pyStr actual).toLower ≠ (pyStr expected).toLower
        else if ctype = "contains" then
          decide ((pyStr expected).toLower.toList <:+: (pyStr actual).toLower.toList)
        else if ctype = "not_empty" then
          match actual with
          | PyVal.none => false
          | v => (pyStr v).trim ≠ ""
        else if ctype = "empty" then
          match actual with
          | PyVal.none => true
          | v => (pyStr v).trim = ""
        else if ctype = "greater_than" then
          match numericOf actual, numericOf expected with
          | Option.some a, Option.some b => decide (a > b)
          | _, _ => false
        else if ctype = "less_than" then
          match numericOf actual, numericOf expected with
          | Option.some a, Option.some b => decide (a < b)
          | _, _ => false
        else if ctype = "regex" then
          o.reSearch (pyStr expected) (pyStr actual)
        else false

/-- The fixed medical-history context fields appended by
`_evaluate_complex_rule`. -/
def medicalContextFields : List String :=
  ["previous_medications_tried", "clinical_justification",
   "primary_diagnosis", "medical_history"]

/-- The `_evaluate_complex_rule` predicate: requires LLM availability and a
truthy prompt template, builds context data from the rule's context fields
plus the fixed medical fields, queries the reasoning collaborator, and
fires when the returned result field equals the expected result
case-insensitively (a raised service error or a non-string result yields
False through the blanket except). -/
def evaluateComplexRule (o : ExternalOracle) (rule : ComplexRule)
    (entities : List (String × PyVal)) : Bool :=
  if !o.llmAvailable then false
  else
    let cfg := rule.llm_inference.getD ⟨Option.none, [], Option.none, Option.none⟩
    match cfg.prompt with
    | Option.none => false
    | Option.some p =>
      if p = "" then false
      else
        let ctx := cfg.context_fields.foldl (fun acc f =>
          match dictGet entities f with
          | Option.some v => dictSet acc f v
          | Option.none => acc) []
        let ctx := medicalContextFields.foldl (fun acc f =>
          match dictGet entities f with
          | Option.some v => dictSet acc f v
          | Option.none => acc) ctx
        match o.llmInfer p ctx with
        | Except.error _ => false
        | Except.ok ents =>
          match (dictGet ents (cfg.result_field.getD "inference_result")).getD (PyVal.str "") with
          | PyVal.str s => s.toLower = (cfg.expected_result.getD "yes").toLower
          | _ => false

/-- Mutable form state threaded through population and rule application:
form_data plus the metadata pieces the code updates in place. -/
structure FormState where
  form_data : List (String × FieldData)
  populated_fields_count : Nat
  missing_fields : List String
  confidence_scores : List (String × ℚ)
  conditional_notes : Option (List String)

/-- Update one form_data entry in place. -/
def updateFieldData (d : List (String × FieldData)) (k : String)
    (f : FieldData → FieldData) : List (String × FieldData) :=
  d.map (fun p => if p.1 = k then (p.1, f p.2) else p)

/-- One action of `_apply_rule_actions`: make_required, set_value or
add_note, each updating the form state and the conditional counters. -/
def applyRuleAction (st : FormState × ConditionalMeta) (a : RuleAction) :
    FormState × ConditionalMeta :=
  let fs := st.1
  let meta := st.2
  match a.atype with
  | Option.some "make_required" =>
    (match a.field with
     | Option.some f =>
       if f ≠ "" && dictHas fs.form_data f then
         let form_data := updateFieldData fs.form_data f
           (fun fd => { fd with required := true, conditional_requirement := true })
         let meta := { meta with conditional_requirements_added :=
           meta.conditional_requirements_added + 1 }
         let fv := ((dictGet form_data f).map FieldData.value).getD PyVal.none
         let missing :=
           if !pyTruthy fv || (pyStr fv).trim = "" then
             if fs.missing_fields.contains f then fs.missing_fields
             else fs.missing_fields ++ [f]
           else fs.missing_fields
         ({ fs with form_data := form_data, missing_fields := missing }, meta)
       else (fs, meta)
     | Option.none => (fs, meta))
  | Option.some "set_value" =>
    (match a.field with
     | Option.some f =>
       if f ≠ "" && dictHas fs.form_data f then
         let value := a.value
         let conf := a.confidence.getD (7/10)
         let form_data := updateFieldData fs.form_data f
           (fun fd => { fd with value := value, confidence := conf,
                                conditional_value := true })
         let meta := { meta with conditional_values_set :=
           meta.conditional_values_set + 1 }
         if pyTruthy value && (pyStr value).trim ≠ "" then
           let populated :=
             if dictHas fs.confidence_scores f then fs.populated_fields_count
             else fs.populated_fields_count + 1
           ({ fs with form_data := form_data,
                      populated_fields_count := populated,
                      confidence_scores := dictSet fs.confidence_scores f conf,
                      missing_fields := fs.missing_fields.erase f }, meta)
         else ({ fs with form_data := form_data }, meta)
       else (fs, meta)
     | Option.none => (fs, meta))
  | Option.some "add_note" =>
    let note := a.note.getD ""
    ({ fs with conditional_notes :=
       Option.some ((fs.conditional_notes.getD []) ++ [note]) }, meta)
  | _ => (fs, meta)

/-- All actions of a triggered rule, in order. -/
def applyRuleActions (actions : Option (List RuleAction))
    (st : FormState × ConditionalMeta) : FormState × ConditionalMeta :=
  (actions.getD []).foldl applyRuleAction st

/-- The `_apply_conditional_rules` phase: evaluate every simple rule then
every complex rule against the current form state, applying the actions of
each rule that fires and tracking the counters. -/
def applyConditionalRules (o : ExternalOracle) (cr : ConditionalRules)
    (entities : List (String × PyVal)) (fs : FormState) :
    FormState × ConditionalMeta :=
  let st0 : FormState × ConditionalMeta := (fs, ⟨0, 0, 0, 0, 0⟩)
  let st1 := cr.simple_rules.foldl (fun st rule =>
    let st := (st.1, { st.2 with rules_evaluated := st.2.rules_evaluated + 1 })
    if evaluateSimpleRule o rule st.1.form_data then
      applyRuleActions rule.actions
        (st.1, { st.2 with rules_triggered := st.2.rules_triggered + 1 })
    else st) st0
  cr.complex_inference_rules.foldl (fun st rule =>
    let st := (st.1, { st.2 with rules_evaluated := st.2.rules_evaluated + 1 })
    if evaluateComplexRule o rule entities then
      applyRuleActions rule.actions
        (st.1, { st.2 with rules_triggered := st.2.rules_triggered + 1,
                           llm_inferences := st.2.llm_inferences + 1 })
    else st) st1

/-- The `_apply_form_structure` grouping: each declared section collects
its fields that exist in form_data and counts those whose value is not
None. -/
def applyFormStructure (form_data : List (String × FieldData))
    (fs : FormStructure) : List (String × StructuredSection) :=
  fs.sections.foldl (fun acc p =>
    let fields := p.2.fields.foldl (fun fl f =>
      match dictGet form_data f with
      | Option.some fd => fl ++ [(f, fd)]
      | Option.none => fl) []
    let populated := (fields.filter (fun q =>
      match q.2.value with
      | PyVal.none => false
      | _ => true)).length
    acc ++ [(p.1, ⟨p.2.title.getD p.1, fields, populated, p.2.fields.length⟩)])
    []

/-- The per-mapping part of `_validate_schema`: every mapping must carry a
source_field (the mapping-must-be-a-dict check is enforced by the typed
model). -/
def checkMappings : List (String × FieldMapping) → Except String Unit
  | [] => Except.ok ()
  | (name, m) :: rest =>
    if m.source_field.isNone then
      Except.error ("Mapping for field " ++ name ++ " missing source_field")
    else checkMappings rest

/-- The simple-rule loop of `_validate_conditional_rules`: each rule needs
a condition and actions, and a condition that names a field must name one
present in field_mappings. -/
def checkSimpleRules (fm : List (String × FieldMapping)) :
    Nat → List SimpleRule → Except String Unit
  | _, [] => Except.ok ()
  | i, r :: rest =>
    match r.condition with
    | Option.none => Except.error ("Simple rule " ++ toString i ++ " missing condition")
    | Option.some c =>
      if r.actions.isNone then
        Except.error ("Simple rule " ++ toString i ++ " missing actions")
      else
        match c.field with
        | Option.some f =>
          if dictHas fm f then checkSimpleRules fm (i + 1) rest
          else Except.error
            ("Simple rule " ++ toString i ++ " references unknown field: " ++ f)
        | Option.none => checkSimpleRules fm (i + 1) rest

/-- The complex-rule loop of `_validate_conditional_rules`: each rule
needs llm_inference, actions, and a prompt inside llm_inference. -/
def checkComplexRules : Nat → List ComplexRule → Except String Unit
  | _, [] => Except.ok ()
  | i, r :: rest =>
    match r.llm_inference with
    | Option.none => Except.error ("Complex rule " ++ toString i ++ " missing llm_inference")
    | Option.some cfg =>
      if r.actions.isNone then
        Except.error ("Complex rule " ++ toString i ++ " missing actions")
      else if cfg.prompt.isNone then
        Except.error ("Complex rule " ++ toString i ++ " missing prompt in llm_inference")
      else checkComplexRules (i + 1) rest

/-- The `_validate_conditional_rules` wrapper, whose blanket except
re-raises every inner failure with the "Invalid conditional rules" prefix. -/
def validateConditionalRules (cr : ConditionalRules)
    (fm : List (String × FieldMapping)) : Except String Unit :=
  match checkSimpleRules fm 0 cr.simple_rules with
  | Except.error e => Except.error ("Invalid conditional rules: " ++ e)
  | Except.ok () =>
    match checkComplexRules 0 cr.complex_inference_rules with
    | Except.error e => Except.error ("Invalid conditional rules: " ++ e)
    | Except.ok () => Except.ok ()

/-- The up-front `_validate_schema` check: required top-level keys in
order, then per-mapping source_field, then conditional rules when
present. -/
def validateSchema (schema : FormSchema) : Except String Unit :=
  if schema.schema_name.isNone then
    Except.error "Schema missing required key: schema_name"
  else if schema.field_mappings.isNone then
    Except.error "Schema missing required key: field_mappings"
  else
    match checkMappings (schema.field_mappings.getD []) with
    | Except.error e => Except.error e
    | Except.ok () =>
      match schema.conditional_rules with
      | Option.some cr => validateConditionalRules cr (schema.field_mappings.getD [])
      | Option.none => Except.ok ()

/-- The base-population loop body of `populate_form` for one field
mapping. -/
def basePopulateStep (o : ExternalOracle) (entities : List (String × PyVal))
    (st : FormState) (p : String × FieldMapping) : FormState :=
  let r := populateField o entities p.2
  let fd : FieldData :=
    ⟨r.1, p.2.source_field.getD "unknown", r.2, p.2.required, p.2.data_type,
     false, false⟩
  let st := { st with form_data := dictSet st.form_data p.1 fd }
  if isPopulatedValue r.1 then
    { st with populated_fields_count := st.populated_fields_count + 1,
              confidence_scores := dictSet st.confidence_scores p.1 r.2 }
  else if p.2.required then
    { st with missing_fields := st.missing_fields ++ [p.1] }
  else st

/-- The whole base-population loop over field_mappings. -/
def basePopulate (o : ExternalOracle) (entities : List (String × PyVal))
    (mappings : List (String × FieldMapping)) : FormState :=
  mappings.foldl (basePopulateStep o entities) ⟨[], 0, [], [], Option.none⟩

/-- The public `populate_form`: validate the schema (a failure is wrapped
by the blanket except into the "Form population failed" error and no form
is produced), base-populate every mapped field, run the conditional-rule
phase, group sections, and finish by computing the completion rate from
the final populated/total counts, rounded to two decimals (0 when the
schema maps no fields).  The population timestamp is passed in for
`datetime.now()`. -/
def populateForm (o : ExternalOracle) (entities : List (String × PyVal))
    (schema : FormSchema) (timestamp : String) : Except String PopulatedForm :=
  match validateSchema schema with
  | Except.error e => Except.error ("Form population failed: " ++ e)
  | Except.ok () =>
    let mappings := schema.field_mappings.getD []
    let base := basePopulate o entities mappings
    let afterRules :=
      match schema.conditional_rules with
      | Option.some cr =>
        let r := applyConditionalRules o cr entities base
        (r.1, Option.some r.2)
      | Option.none => (base, Option.none)
    let st := afterRules.1
    let sections := schema.form_structure.map (applyFormStructure st.form_data)
    let total := mappings.length
    let completion : ℚ :=
      if total > 0 then round2 ((st.populated_fields_count : ℚ) / (total : ℚ))
      else 0
    Except.ok
      { form_metadata :=
          { schema_name := schema.schema_name.getD "unknown"
            schema_version := schema.schema_version.getD "1.0"
            population_timestamp := timestamp
            populated_fields_count := st.populated_fields_count
            total_fields_count := total
            missing_fields := st.missing_fields
            confidence_scores := st.confidence_scores
            completion_rate := completion
            conditional_logic := afterRules.2
            conditional_notes := st.conditional_notes }
        form_data := st.form_data
        form_sections := sections }

/-! ## Atomic document store (src/src/services/data_store.py)

A metadata record is a JSON object, modelled as a Python dict of string
keys.  `save_document_metadata` builds the enhanced record, restores the
original `created_at` when a record already exists, and replaces the whole
file via the temp-file-then-rename write; the state passed in is the
currently stored record (None when the metadata file does not exist). -/

/-- The `enhanced_metadata` dict literal: document_id, created_at and
updated_at stamped first, then every key of the caller's metadata in
order, later keys overriding. -/
def enhanceMetadata (docId now : String) (metadata : List (String × PyVal)) :
    List (String × PyVal) :=
  metadata.foldl (fun d p => dictSet d p.1 p.2)
    [("document_id", PyVal.str docId), ("created_at", PyVal.str now),
     ("updated_at", PyVal.str now)]

/-- The record written by `save_document_metadata`: the enhanced metadata,
with `created_at` taken from the existing record when the file already
exists (falling back to the fresh stamp when the old record lacks it). -/
def saveDocumentMetadata (existing : Option (List (String × PyVal)))
    (docId now : String) (metadata : List (String × PyVal)) :
    List (String × PyVal) :=
  let enhanced := enhanceMetadata docId now metadata
  match existing with
  | Option.some old =>
    dictSet enhanced "created_at"
      ((dictGet old "created_at").getD
        ((dictGet enhanced "created_at").getD PyVal.none))
  | Option.none => enhanced

/-! ## Resilient external call wrapper (src/src/services/llm_service.py)

`GeminiService.generate_response` retries the external call up to
GEMINI_MAX_RETRIES times, sleeping `(attempt + 1) * 2` seconds between
consecutive failed attempts, and raises an LLMServiceError naming the last
underlying error once the attempts are exhausted.  Each attempt's outcome
is supplied by the environment: a raised exception, or the value of
`response.text` (None or a string; a falsy text re-raises the
"Empty response" error, which is caught and retried like any failure). -/

/-- The sleep computed before retrying after a failed attempt. -/
def backoffWait (attempt : Nat) : Nat :=
  (attempt + 1) * 2

/-- Observable result of `generate_response`: the returned text or the
raised LLMServiceError message, together with every sleep performed. -/
structure RetryTrace where
  outcome : Except String String
  sleeps : List Nat

/-- The retry loop of `generate_response`, structurally recursing on the
number of attempts still allowed (`attempt` is the zero-based index of the
current attempt). -/
def generateResponseGo (responses : Nat → Except String (Option String))
    (maxRetries : Nat) : Nat → Nat → String → List Nat → RetryTrace
  | 0, _, lastError, sleeps =>
    ⟨Except.error ("Gemini API call failed after " ++ toString maxRetries ++
       " attempts. Last error: " ++ lastError), sleeps⟩
  | fuel + 1, attempt, _, sleeps =>
    let failWith := fun (e : String) =>
      let sleeps2 := if fuel = 0 then sleeps else sleeps ++ [backoffWait attempt]
      generateResponseGo responses maxRetries fuel (attempt + 1) e sleeps2
    match responses attempt with
    | Except.ok (Option.some t) =>
      if t = "" then failWith "Empty response from Gemini API"
      else ⟨Except.ok t.trim, sleeps⟩
    | Except.ok Option.none => failWith "Empty response from Gemini API"
    | Except.error e => failWith e

/-- The public `generate_response` wrapper (`last_error` starts as Python
None, printed "None" if no attempt ever ran). -/
def generateResponse (responses : Nat → Except String (Option String))
    (maxRetries : Nat) : RetryTrace :=
  generateResponseGo responses maxRetries maxRetries 0 "None" []

/-! ## Pipeline orchestrator (src/src/orchestrator.py)

The stage sequence, the stage driver `_execute_stage` and every stage
function are embedded; the collaborators each stage calls (pdf_utils,
Tesseract, LlamaParse, pdfplumber, Gemini, PyMuPDF) are supplied by an
environment of outcomes, with a raised exception modelled as
`Except.error` carrying the message.  Timestamps and durations recorded in
stage results, and the persisted copies written through
`save_processed_data`, carry no information the claims consult and are
omitted from the records. -/

/-- The PipelineStage enumeration (8 members). -/
inductive PipelineStage where
  | initialization
  | pdfAnalysis
  | ocrProcessing
  | documentParsing
  | entityExtraction
  | formFilling
  | pdfGeneration
  | completion
deriving DecidableEq

/-- The `.value` string of each stage. -/
def PipelineStage.value : PipelineStage → String
  | .initialization => "initialization"
  | .pdfAnalysis => "pdf_analysis"
  | .ocrProcessing => "ocr_processing"
  | .documentParsing => "document_parsing"
  | .entityExtraction => "entity_extraction"
  | .formFilling => "form_filling"
  | .pdfGeneration => "pdf_generation"
  | .completion => "completion"

/-- Members of PipelineStage in declaration order; `len(PipelineStage)` is
the length of this list. -/
def allPipelineStages : List PipelineStage :=
  [.initialization, .pdfAnalysis, .ocrProcessing, .documentParsing,
   .entityExtraction, .formFilling, .pdfGeneration, .completion]

/-- PipelineStatus values a stored stage result can carry. -/
inductive StageStatus where
  | completed
  | skipped
  | failed
deriving DecidableEq

/-- A record of the pdf_generation stage as the three tiers build it:
form_filling, hybrid_overlay, or the simple data document (which stores no
generation_method).  File sizes and timestamps are omitted. -/
structure PdfGenRecord where
  output_path : String
  template_path : Option String
  generation_type : Option String
  generation_method : Option String
  fields_included : Option Nat
  fields_filled : Option Nat

/-- The result payload a completed stage stores. -/
inductive StageValue where
  | pdfAnalysis (page_count : Nat) (has_native_text : Bool) (needs_ocr : Bool)
  | ocr (extracted_text : String)
  | parsing (llamaContent : Option String) (plumberText : Option String)
      (primary_content : String)
  | entities (extracted : List (String × PyVal))
  | formFilling (populated_form : PopulatedForm)
  | pdfGen (record : PdfGenRecord)

/-- One stored stage result: status plus a result payload or a
skip/failure reason. -/
structure StageRecord where
  status : StageStatus
  result : Option StageValue
  reason : Option String

/-- In-memory orchestrator state: `self.stage_results` plus the stage
lists of `self.pipeline_metadata`. -/
structure PipelineState where
  stage_results : List (PipelineStage × StageRecord)
  stages_completed : List String
  stages_skipped : List String
  stages_failed : List String

/-- A raised PipelineError names the failing stage and the message. -/
structure PipelineFailure where
  stage : PipelineStage
  message : String

/-- The `_execute_stage` driver: a successful stage function stores a
Completed record; an exception from a conditional stage stores a Skipped
record carrying the reason and execution continues; an exception from a
non-conditional stage raises a PipelineError naming the stage. -/
def executeStage (st : PipelineState) (stage : PipelineStage)
    (f : PipelineState → Except String StageValue) (conditional : Bool) :
    Except PipelineFailure (PipelineState × StageRecord) :=
  match f st with
  | Except.ok v =>
    let r : StageRecord := ⟨StageStatus.completed, Option.some v, Option.none⟩
    Except.ok ({ st with
      stage_results := dictSet st.stage_results stage r,
      stages_completed := st.stages_completed ++ [stage.value] }, r)
  | Except.error e =>
    if conditional then
      let r : StageRecord := ⟨StageStatus.skipped, Option.none, Option.some e⟩
      Except.ok ({ st with
        stage_results := dictSet st.stage_results stage r,
        stages_skipped := st.stages_skipped ++ [stage.value] }, r)
    else Except.error ⟨stage, e⟩

/-- The fill statistics `generate_filled_pdf` records into the populated
form's metadata. -/
structure FillStats where
  fields_found : Nat
  fields_filled : Nat

/-- Collaborator outcomes for the PDF-generation fallback chain: which
template files exist, and the PyMuPDF-side outcome of each tier's
rendering work. -/
structure PdfGenEnv where
  userTemplate : Bool
  defaultTemplate : Bool
  templateFill : Except String FillStats
  hybridWrite : Except String Unit
  simpleWrite : Except String Unit

/-- The `len([f for f in form_data.values() if f.get("value")])` count of
truthy-valued fields reported by tiers 2 and 3. -/
def fieldsIncluded (form_data : List (String × FieldData)) : Nat :=
  (form_data.filter (fun p => pyTruthy p.2.value)).length

/-- Tier 3, `_generate_simple_data_pdf`: a fresh document listing every
populated field; no template_path and no generation_method in its
record. -/
def generateSimpleDataPdf (env : PdfGenEnv) (pf : PopulatedForm)
    (outputPath : String) : Except String PdfGenRecord :=
  match env.simpleWrite with
  | Except.ok () =>
    Except.ok ⟨outputPath, Option.none, Option.some "simple_data_pdf",
      Option.none, Option.some (fieldsIncluded pf.form_data), Option.none⟩
  | Except.error e => Except.error ("Simple PDF generation failed: " ++ e)

/-- Tier 2, `_generate_hybrid_pdf`: keeps the template and appends data
pages; its record carries generation_method "hybrid_overlay"; a PyMuPDF
failure falls back to the simple data document. -/
def generateHybridPdf (env : PdfGenEnv) (pf : PopulatedForm)
    (templatePath outputPath : String) : Except String PdfGenRecord :=
  match env.hybridWrite with
  | Except.ok () =>
    Except.ok ⟨outputPath, Option.some templatePath, Option.some "hybrid_pdf",
      Option.some "hybrid_overlay", Option.some (fieldsIncluded pf.form_data),
      Option.none⟩
  | Except.error _ => generateSimpleDataPdf env pf outputPath

/-- The `_stage_pdf_generation` function: choose a template (user-provided
over default), run the tier-1 template fill, divert to the hybrid overlay
when zero fields were filled while some were found or when tier 1 raises,
and use the simple data document when no template exists; the stage's
blanket except prefixes every raised message. -/
def stagePdfGeneration (env : PdfGenEnv) (pf : Option PopulatedForm)
    (docId : String) : Except String PdfGenRecord :=
  let wrap : Except String PdfGenRecord → Except String PdfGenRecord :=
    fun r =>
      match r with
      | Except.ok v => Except.ok v
      | Except.error e => Except.error ("PDF generation failed: " ++ e)
  match pf with
  | Option.none => Except.error "PDF generation failed: No populated form data available for PDF generation"
  | Option.some pf =>
    let outputPath := docId ++ "_filled_form.pdf"
    if !env.userTemplate && !env.defaultTemplate then
      wrap (generateSimpleDataPdf env pf outputPath)
    else
      let templatePath :=
        if env.userTemplate then docId ++ "_form_template.pdf"
        else "prior_auth_template.pdf"
      match env.templateFill with
      | Except.ok stats =>
        if stats.fields_filled = 0 && stats.fields_found > 0 then
          wrap (generateHybridPdf env pf templatePath outputPath)
        else
          Except.ok ⟨outputPath, Option.some templatePath, Option.none,
            Option.some "form_filling", Option.none,
            Option.some stats.fields_filled⟩
      | Except.error _ =>
        wrap (generateHybridPdf env pf templatePath outputPath)

/-- The collaborator outcomes one pipeline run consumes.  Every external
call's result (or raised exception) is an `Except`; availability probes
are booleans. -/
structure OrchestratorEnv where
  docId : String
  pdfInfo : Except String (Nat × Bool)
  ocrAvailable : Bool
  ocrText : Except String String
  parsingAvailable : Bool
  llamaparse : Except String String
  pdfplumberText : Except String String
  llmAvailable : Bool
  extractEntities : String → Except String (List (String × PyVal))
  formFillerAvailable : Bool
  loadSchema : Except String FormSchema
  oracle : ExternalOracle
  timestamp : String
  pdfGen : PdfGenEnv

/-- Fetch the completed result payload stored for a stage. -/
def lookupResult (srs : List (PipelineStage × StageRecord))
    (stage : PipelineStage) : Option StageValue :=
  match dictGet srs stage with
  | Option.some r => r.result
  | Option.none => Option.none

/-- The `_stage_pdf_analysis` function: page count and native check from
pdf_utils, with needs_ocr the negation of the native flag. -/
def stagePdfAnalysis (env : OrchestratorEnv) : Except String StageValue :=
  match env.pdfInfo with
  | Except.ok pc =>
    Except.ok (StageValue.pdfAnalysis pc.1 pc.2 (!pc.2))
  | Except.error e => Except.error ("PDF analysis failed: " ++ e)

/-- The `pdf_analysis.get("needs_ocr", True)` read of the OCR stage. -/
def needsOcrOf (srs : List (PipelineStage × StageRecord)) : Bool :=
  match lookupResult srs PipelineStage.pdfAnalysis with
  | Option.some (StageValue.pdfAnalysis _ _ needs) => needs
  | _ => true

/-- The `_stage_ocr_processing` function: deliberately raises the
"not needed" signal for a native PDF, raises when Tesseract is
unavailable, otherwise runs OCR. -/
def stageOcrProcessing (env : OrchestratorEnv)
    (srs : List (PipelineStage × StageRecord)) : Except String StageValue :=
  if !needsOcrOf srs then
    Except.error "PDF has native text, OCR not needed"
  else if !env.ocrAvailable then
    Except.error "OCR service not available (check Tesseract installation)"
  else
    match env.ocrText with
    | Except.ok t => Except.ok (StageValue.ocr t)
    | Except.error e => Except.error ("OCR processing failed: " ++ e)

/-- The `_stage_document_parsing` function: try LlamaParse when available,
try pdfplumber regardless, fail only when both strategies produced
nothing, and prefer the LlamaParse markdown as primary content (the
pdfplumber text is modelled already joined across pages). -/
def stageDocumentParsing (env : OrchestratorEnv) : Except String StageValue :=
  let llama : Option String :=
    if env.parsingAvailable then env.llamaparse.toOption else Option.none
  let plumber : Option String := env.pdfplumberText.toOption
  if llama.isNone && plumber.isNone then
    Except.error "Document parsing failed: All parsing methods failed"
  else
    let primary :=
      match llama with
      | Option.some md => md
      | Option.none => plumber.getD ""
    Except.ok (StageValue.parsing llama plumber primary)

/-- The `_get_document_content` read: parsing primary content first, OCR
text as the fallback. -/
def documentContentOf (srs : List (PipelineStage × StageRecord)) : String :=
  let fromParsing :=
    match lookupResult srs PipelineStage.documentParsing with
    | Option.some (StageValue.parsing _ _ primary) => primary
    | _ => ""
  if fromParsing ≠ "" then fromParsing
  else
    match lookupResult srs PipelineStage.ocrProcessing with
    | Option.some (StageValue.ocr t) => t
    | _ => ""

/-- The `_stage_entity_extraction` function: requires the Gemini service
and non-empty document content; a service error is re-raised with the
stage prefix.  (The entity validation report stored alongside carries
only statistics no claim consults and is omitted.) -/
def stageEntityExtraction (env : OrchestratorEnv)
    (srs : List (PipelineStage × StageRecord)) : Except String StageValue :=
  if !env.llmAvailable then
    Except.error "LLM service not available (check GEMINI_API_KEY)"
  else
    let content := documentContentOf srs
    if content = "" then
      Except.error "No document content available for entity extraction"
    else
      match env.extractEntities content with
      | Except.ok ents => Except.ok (StageValue.entities ents)
      | Except.error e => Except.error ("Entity extraction failed: " ++ e)

/-- The `_stage_form_filling` function: requires the form filler service
and non-empty extracted entities, then loads the schema and runs the rule
engine; FormFillerError messages gain the stage prefix. -/
def stageFormFilling (env : OrchestratorEnv)
    (srs : List (PipelineStage × StageRecord)) : Except String StageValue :=
  if !env.formFillerAvailable then
    Except.error "Form filler service not available"
  else
    let ents :=
      match lookupResult srs PipelineStage.entityExtraction with
      | Option.some (StageValue.entities e) => e
      | _ => []
    if ents.isEmpty then
      Except.error "No extracted entities available for form filling"
    else
      match env.loadSchema with
      | Except.error e => Except.error ("Form filling failed: " ++ e)
      | Except.ok schema =>
        match populateForm env.oracle ents schema env.timestamp with
        | Except.ok pf => Except.ok (StageValue.formFilling pf)
        | Except.error e => Except.error ("Form filling failed: " ++ e)

/-- The `_stage_pdf_generation` function lifted to a stage value, reading
the populated form from the form-filling result. -/
def stagePdfGenerationValue (env : OrchestratorEnv)
    (srs : List (PipelineStage × StageRecord)) : Except String StageValue :=
  let pf :=
    match lookupResult srs PipelineStage.formFilling with
    | Option.some (StageValue.formFilling pf) => Option.some pf
    | _ => Option.none
  (stagePdfGeneration env.pdfGen pf env.docId).map StageValue.pdfGen

/-- The run summary of `_generate_pipeline_summary`: counts of the stage
lists and `success_rate = completed / len(PipelineStage)`. -/
structure PipelineSummary where
  total_stages : Nat
  completed_stages : Nat
  skipped_stages : Nat
  failed_stages : Nat
  success_rate : ℚ
  output_files : List String

/-- Build the run summary from the final pipeline state. -/
def generatePipelineSummary (st : PipelineState) : PipelineSummary :=
  let outputs :=
    match lookupResult st.stage_results PipelineStage.pdfGeneration with
    | Option.some (StageValue.pdfGen r) => [r.output_path]
    | _ => []
  ⟨allPipelineStages.length, st.stages_completed.length,
   st.stages_skipped.length, st.stages_failed.length,
   (st.stages_completed.length : ℚ) / (allPipelineStages.length : ℚ),
   outputs⟩

/-- The final result surface of a successful run. -/
structure PipelineResults where
  state : PipelineState
  summary : PipelineSummary

/-- The `run_pipeline` driver: the six middle stages in fixed order (OCR
conditional), then the completion bookkeeping and summary.  A
non-conditional stage failure raises the PipelineError produced by the
driver (the already-persisted stage results are unaffected by the
raise). -/
def runPipeline (env : OrchestratorEnv) :
    Except PipelineFailure PipelineResults :=
  match executeStage ⟨[], [], [], []⟩ PipelineStage.pdfAnalysis
      (fun _ => stagePdfAnalysis env) false with
  | Except.error f => Except.error f
  | Except.ok (st1, _) =>
    match executeStage st1 PipelineStage.ocrProcessing
        (fun st => stageOcrProcessing env st.stage_results) true with
    | Except.error f => Except.error f
    | Except.ok (st2, _) =>
      match executeStage st2 PipelineStage.documentParsing
          (fun _ => stageDocumentParsing env) false with
      | Except.error f => Except.error f
      | Except.ok (st3, _) =>
        match executeStage st3 PipelineStage.entityExtraction
            (fun st => stageEntityExtraction env st.stage_results) false with
        | Except.error f => Except.error f
        | Except.ok (st4, _) =>
          match executeStage st4 PipelineStage.formFilling
              (fun st => stageFormFilling env st.stage_results) false with
          | Except.error f => Except.error f
          | Except.ok (st5, _) =>
            match executeStage st5 PipelineStage.pdfGeneration
                (fun st => stagePdfGenerationValue env st.stage_results) false with
            | Except.error f => Except.error f
            | Except.ok (st6, _) =>
              Except.ok ⟨st6, generatePipelineSummary st6⟩

/-! ## Association-list (dict) lemmas -/

theorem dictHas_eq_isSome_dictGet {κ α : Type} [DecidableEq κ]
    (d : List (κ × α)) (k : κ) : dictHas d k = (dictGet d k).isSome := by
  simp [dictHas, dictGet]

theorem find?_append_of_none {κ α : Type} (d l2 : List (κ × α))
    (p : κ × α → Bool) (h : d.find? p = Option.none) :
    (d ++ l2).find? p = l2.find? p := by
  induction d with
  | nil => rfl
  | cons x rest ih =>
    simp only [List.find?] at h
    simp only [List.cons_append, List.find?]
    cases hx : p x with
    | true => rw [hx] at h; cases h
    | false => rw [hx] at h; exact ih h

theorem find?_append_singleton_ne {κ α : Type} [DecidableEq κ]
    (d : List (κ × α)) (k k2 : κ) (v : α) (hne : k2 ≠ k) :
    (d ++ [(k, v)]).find? (fun p => p.1 = k2) =
      d.find? (fun p => p.1 = k2) := by
  induction d with
  | nil => simp [List.find?, hne.symm]
  | cons x rest ih =>
    by_cases hx : x.1 = k2
    · simp [List.find?, hx]
    · simp [List.find?, hx, ih]

theorem dictGet_dictSet_self {κ α : Type} [DecidableEq κ]
    (d : List (κ × α)) (k : κ) (v : α) :
    dictGet (dictSet d k v) k = Option.some v := by
  unfold dictGet dictSet
  by_cases h : (d.find? (fun p => p.1 = k)).isSome
  · rw [if_pos h, List.find?_map]
    have hcong : ((fun p : κ × α => decide (p.1 = k)) ∘
        fun p => if p.1 = k then (k, v) else p) =
        fun p : κ × α => decide (p.1 = k) := by
      funext p
      by_cases hp : p.1 = k
      · simp [hp]
      · simp [hp]
    rw [hcong]
    obtain ⟨a, ha⟩ := Option.isSome_iff_exists.mp h
    have hak : a.1 = k := by simpa using List.find?_some ha
    rw [ha]
    simp [hak]
  · rw [if_neg h,
      find?_append_of_none _ _ _ (Option.not_isSome_iff_eq_none.mp h)]
    simp [List.find?]

theorem dictGet_dictSet_ne {κ α : Type} [DecidableEq κ]
    (d : List (κ × α)) (k k2 : κ) (v : α) (hne : k2 ≠ k) :
    dictGet (dictSet d k v) k2 = dictGet d k2 := by
  unfold dictGet dictSet
  by_cases h : (d.find? (fun p => p.1 = k)).isSome
  · rw [if_pos h, List.find?_map]
    have hcong : ((fun p : κ × α => decide (p.1 = k2)) ∘
        fun p => if p.1 = k then (k, v) else p) =
        fun p : κ × α => decide (p.1 = k2) := by
      funext p
      by_cases hp : p.1 = k
      · simp [hp, hne.symm]
      · simp [hp]
    rw [hcong]
    cases ha : d.find? (fun p => decide (p.1 = k2)) with
    | none => rfl
    | some a =>
      have hak : a.1 = k2 := by simpa using List.find?_some ha
      have hk : ¬(a.1 = k) := by rw [hak]; exact hne
      simp [hk]
  · rw [if_neg h, find?_append_singleton_ne _ _ _ _ hne]

theorem dictGet_foldSet_not_mem {κ α : Type} [DecidableEq κ]
    (l : List (κ × α)) (d : List (κ × α)) (k : κ)
    (h : k ∉ l.map Prod.fst) :
    dictGet (l.foldl (fun d p => dictSet d p.1 p.2) d) k = dictGet d k := by
  induction l generalizing d with
  | nil => rfl
  | cons p rest ih =>
    simp only [List.map_cons, List.mem_cons, not_or] at h
    simp only [List.foldl_cons]
    rw [ih _ h.2, dictGet_dictSet_ne _ _ _ _ (fun hk => h.1 hk)]

theorem isSome_dictGet_dictSet {κ α : Type} [DecidableEq κ]
    (d : List (κ × α)) (k k2 : κ) (v : α)
    (h : (dictGet d k).isSome) : (dictGet (dictSet d k2 v) k).isSome := by
  by_cases hk : k = k2
  · subst hk
    rw [dictGet_dictSet_self]
    rfl
  · rw [dictGet_dictSet_ne _ _ _ _ hk]
    exact h

theorem isSome_dictGet_foldSet {κ α : Type} [DecidableEq κ]
    (l : List (κ × α)) (d : List (κ × α)) (k : κ)
    (h : (dictGet d k).isSome) :
    (dictGet (l.foldl (fun d p => dictSet d p.1 p.2) d) k).isSome := by
  induction l generalizing d with
  | nil => exact h
  | cons p rest ih => exact ih _ (isSome_dictGet_dictSet _ _ _ _ h)

theorem enhanceMetadata_created_at_isSome (docId now : String)
    (m : List (String × PyVal)) :
    (dictGet (enhanceMetadata docId now m) "created_at").isSome := by
  unfold enhanceMetadata
  apply isSome_dictGet_foldSet
  rfl

/-- Oracle used by concrete witnesses: no regex matches, no reasoning
service configured. -/
def plainOracle : ExternalOracle :=
  ⟨fun _ _ => false, fun _ _ => false, false,
   fun _ _ => Except.error "LLM unavailable"⟩

/-- Oracle-independent field mapping used by the C1 counterexample:
straight copy of one source field. -/
def c1mapping (src : String) : FieldMapping :=
  ⟨Option.some src, false, "string", Option.none, Option.none, Option.none⟩

/-- Three-field schema for the C1 counterexample. -/
def c1schema : FormSchema :=
  ⟨Option.some "S", Option.none,
   Option.some [("f1", c1mapping "s1"), ("f2", c1mapping "s2"),
     ("f3", c1mapping "s3")],
   Option.none, Option.none⟩

/-! ## Claim C3: metadata write semantics -/

/-- C3 counterexample: the claim's shallow-merge part fails.  After
saving metadata with key "a" and then saving metadata without it, the
stored record no longer contains "a" — `save_document_metadata` rebuilds
the record from the new metadata rather than merging into the old one. -/
theorem save_metadata_no_merge_cex :
    dictGet
      (saveDocumentMetadata
        (Option.some (saveDocumentMetadata Option.none "doc" "t1"
          [("a", PyVal.str "1")]))
        "doc" "t2" []) "a" = Option.none := by
  rfl

/-- C3 (amended): `save_document_metadata` overwrites the stored record —
after two saves, any key other than document_id / created_at / updated_at
that the second metadata does not carry is absent — while the original
`created_at` written by the first call is preserved by the second. -/
theorem save_metadata_created_at_preserved_overwrite
    (docId now1 now2 : String) (m1 m2 : List (String × PyVal)) (k : String)
    (h1 : k ≠ "document_id") (h2 : k ≠ "created_at") (h3 : k ≠ "updated_at")
    (h4 : k ∉ m2.map Prod.fst) :
    dictGet (saveDocumentMetadata
        (Option.some (saveDocumentMetadata Option.none docId now1 m1))
        docId now2 m2) "created_at" =
      dictGet (saveDocumentMetadata Option.none docId now1 m1) "created_at" ∧
    dictGet (saveDocumentMetadata
        (Option.some (saveDocumentMetadata Option.none docId now1 m1))
        docId now2 m2) k = Option.none := by
  constructor
  · show dictGet (dictSet _ "created_at" _) "created_at" = _
    rw [dictGet_dictSet_self]
    have hs := enhanceMetadata_created_at_isSome docId now1 m1
    obtain ⟨x, hx⟩ := Option.isSome_iff_exists.mp hs
    unfold saveDocumentMetadata
    rw [hx]
    rfl
  · show dictGet (dictSet _ "created_at" _) k = _
    rw [dictGet_dictSet_ne _ _ _ _ h2]
    unfold enhanceMetadata
    rw [dictGet_foldSet_not_mem _ _ _ h4]
    simp [dictGet, List.find?, Ne.symm h1, Ne.symm h2, Ne.symm h3]

/-- C3 witness: the amended theorem at a concrete pair of saves. -/
theorem save_metadata_created_at_preserved_overwrite_witness :
    dictGet (saveDocumentMetadata
        (Option.some (saveDocumentMetadata Option.none "doc" "t1"
          [("status", PyVal.str "started")]))
        "doc" "t2" [("other", PyVal.str "y")]) "created_at" =
      dictGet (saveDocumentMetadata Option.none "doc" "t1"
        [("status", PyVal.str "started")]) "created_at" ∧
    dictGet (saveDocumentMetadata
        (Option.some (saveDocumentMetadata Option.none "doc" "t1"
          [("status", PyVal.str "started")]))
        "doc" "t2" [("other", PyVal.str "y")]) "status" = Option.none :=
  save_metadata_created_at_preserved_overwrite "doc" "t1" "t2"
    [("status", PyVal.str "started")] [("other", PyVal.str "y")] "status"
    (by decide) (by decide) (by decide) (by decide)

/-! ## Claim C7: retry wrapper -/

/-- Attempt outcomes in which every call raises, carrying the attempt
number in the message. -/
def c7responses : Nat → Except String (Option String) :=
  fun i => Except.error ("boom" ++ toString (i + 1))

/-- C7: with GEMINI_MAX_RETRIES = 4 and every attempt failing, the
wrapper raises the typed service error carrying the final underlying
cause (boom4), but the sleeps between consecutive failed attempts are
2, 4, 6 seconds — an arithmetic progression (2·(attempt+1)), not the
exponential growth the code's own "Exponential backoff" comment, the
service info string and the spec describe (the middle sleep squared is
not the product of its neighbours). -/
theorem generate_response_linear_backoff_exhibit :
    (generateResponse c7responses 4).outcome =
      Except.error "Gemini API call failed after 4 attempts. Last error: boom4" ∧
    (generateResponse c7responses 4).sleeps = [2, 4, 6] ∧
    4 * 4 ≠ 2 * 6 := by
  refine ⟨rfl, rfl, by decide⟩

/-! ## Claim C8: determinism of populate_form -/

/-- C8: two runs of `populate_form` over identical entities, schema and
collaborator behaviour yield identical form_data (values and confidences)
and identical confidence scores, whatever the two population timestamps
are — the timestamp flows only into population_timestamp. -/
theorem populate_form_deterministic (o : ExternalOracle)
    (entities : List (String × PyVal)) (schema : FormSchema)
    (t1 t2 : String) :
    (populateForm o entities schema t1).map PopulatedForm.form_data =
      (populateForm o entities schema t2).map PopulatedForm.form_data ∧
    (populateForm o entities schema t1).map
        (fun f => f.form_metadata.confidence_scores) =
      (populateForm o entities schema t2).map
        (fun f => f.form_metadata.confidence_scores) := by
  unfold populateForm
  cases validateSchema schema <;> simp [Except.map]

/-! ## Claim C10: case-insensitive equality operators -/

/-- C10: for a simple rule whose condition field is present in form_data,
the equals operator holds exactly when the str()-coerced, lowercased
actual and expected values coincide, and not_equals is its exact
negation — equality comparison is case-insensitive. -/
theorem simple_rule_equality_case_insensitive (o : ExternalOracle)
    (rule : SimpleRule) (form_data : List (String × FieldData))
    (c : Condition) (f : String) (fd : FieldData)
    (hc : rule.condition = Option.some c)
    (hf : c.field = Option.some f) (hfne : f ≠ "")
    (hlook : dictGet form_data f = Option.some fd) :
    (c.ctype = Option.some "equals" →
      (evaluateSimpleRule o rule form_data = true ↔
        (pyStr fd.value).toLower = (pyStr c.value).toLower)) ∧
    (c.ctype = Option.some "not_equals" →
      (evaluateSimpleRule o rule form_data = true ↔
        (pyStr fd.value).toLower ≠ (pyStr c.value).toLower)) := by
  constructor <;> intro hty <;>
    simp [evaluateSimpleRule, hc, hf, hfne, hlook, hty]

/-! ## Claim C1: completion-rate invariant -/

/-- C1 (amended): the completion rate stored by `populate_form` is the
ratio of the final (post-conditional-phase) populated count over the
total count, rounded to two decimal places, and 0 when the schema maps no
fields. -/
theorem populate_form_completion_rate (o : ExternalOracle)
    (entities : List (String × PyVal)) (schema : FormSchema) (t : String)
    (form : PopulatedForm)
    (h : populateForm o entities schema t = Except.ok form) :
    form.form_metadata.completion_rate =
      if form.form_metadata.total_fields_count = 0 then 0
      else round2 ((form.form_metadata.populated_fields_count : ℚ) /
        (form.form_metadata.total_fields_count : ℚ)) := by
  unfold populateForm at h
  cases hv : validateSchema schema with
  | error e =>
    rw [hv] at h
    cases h
  | ok u =>
    rw [hv] at h
    cases h
    by_cases htot : (schema.field_mappings.getD []).length = 0 <;>
      simp [htot]

theorem round2_one_third : round2 ((1 : ℚ)/3) = 33/100 := by
  have h1 : ((1 : ℚ)/3) * 100 = 100/3 := by ring
  unfold round2 roundHalfEven
  rw [h1]
  have h2 : ⌊(100 : ℚ)/3⌋ = 33 := by
    rw [Int.floor_eq_iff]
    constructor <;> norm_num
  rw [h2]
  norm_num

/-- C1 counterexample: with one of three fields populated the stored
completion_rate is round2(1/3) = 0.33, which is not equal to
populated/total = 1/3 — the exact-quotient claim fails. -/
theorem populate_form_completion_rate_cex :
    (populateForm plainOracle [("s1", PyVal.str "val")] c1schema "ts").toOption.map
      (fun f => (f.form_metadata.completion_rate,
        f.form_metadata.populated_fields_count,
        f.form_metadata.total_fields_count)) =
      Option.some (round2 ((1 : ℚ)/3), 1, 3) ∧
    round2 ((1 : ℚ)/3) ≠
      ((1 : ℕ) : ℚ) / ((3 : ℕ) : ℚ) := by
  constructor
  · rfl
  · rw [round2_one_third]
    norm_num

/-- C1 witness: the rounded-completion theorem applied to the same
concrete population. -/
theorem populate_form_completion_rate_witness :
    ((populateForm plainOracle [("s1", PyVal.str "val")] c1schema
      "ts").toOption.getD
        ⟨⟨"", "", "", 0, 0, [], [], 0, Option.none, Option.none⟩, [],
          Option.none⟩).form_metadata.completion_rate =
      if ((populateForm plainOracle [("s1", PyVal.str "val")] c1schema
          "ts").toOption.getD
            ⟨⟨"", "", "", 0, 0, [], [], 0, Option.none, Option.none⟩, [],
              Option.none⟩).form_metadata.total_fields_count = 0 then 0
      else round2
        ((((populateForm plainOracle [("s1", PyVal.str "val")] c1schema
          "ts").toOption.getD
            ⟨⟨"", "", "", 0, 0, [], [], 0, Option.none, Option.none⟩, [],
              Option.none⟩).form_metadata.populated_fields_count : ℚ) /
         (((populateForm plainOracle [("s1", PyVal.str "val")] c1schema
          "ts").toOption.getD
            ⟨⟨"", "", "", 0, 0, [], [], 0, Option.none, Option.none⟩, [],
              Option.none⟩).form_metadata.total_fields_count : ℚ)) :=
  populate_form_completion_rate plainOracle [("s1", PyVal.str "val")]
    c1schema "ts" _ rfl

/-! ## Orchestrator driver lemmas -/

theorem executeStage_completed_shape (st : PipelineState)
    (stage : PipelineStage) (f : PipelineState → Except String StageValue)
    (c : Bool) (st2 : PipelineState) (r : StageRecord)
    (h : executeStage st stage f c = Except.ok (st2, r)) :
    st2.stages_completed = st.stages_completed ∨
      st2.stages_completed = st.stages_completed ++ [stage.value] := by
  unfold executeStage at h
  cases hf : f st with
  | ok v =>
    rw [hf] at h
    cases h
    right
    rfl
  | error e =>
    rw [hf] at h
    cases c with
    | true =>
      simp only [if_true] at h
      cases h
      left
      rfl
    | false =>
      simp at h

theorem executeStage_results_shape (st : PipelineState)
    (stage : PipelineStage) (f : PipelineState → Except String StageValue)
    (c : Bool) (st2 : PipelineState) (r : StageRecord)
    (h : executeStage st stage f c = Except.ok (st2, r)) :
    st2.stage_results = dictSet st.stage_results stage r := by
  unfold executeStage at h
  cases hf : f st with
  | ok v =>
    rw [hf] at h
    cases h
    rfl
  | error e =>
    rw [hf] at h
    cases c with
    | true =>
      simp only [if_true] at h
      cases h
      rfl
    | false =>
      simp at h

theorem executeStage_of_fun_ok (st : PipelineState) (stage : PipelineStage)
    (f : PipelineState → Except String StageValue) (c : Bool)
    (v : StageValue) (hv : f st = Except.ok v) :
    executeStage st stage f c =
      Except.ok ({ st with
        stage_results := dictSet st.stage_results stage
          ⟨StageStatus.completed, Option.some v, Option.none⟩,
        stages_completed := st.stages_completed ++ [stage.value] },
        ⟨StageStatus.completed, Option.some v, Option.none⟩) := by
  simp [executeStage, hv]

theorem executeStage_of_fun_error_conditional (st : PipelineState)
    (stage : PipelineStage) (f : PipelineState → Except String StageValue)
    (e : String) (he : f st = Except.error e) :
    executeStage st stage f true =
      Except.ok ({ st with
        stage_results := dictSet st.stage_results stage
          ⟨StageStatus.skipped, Option.none, Option.some e⟩,
        stages_skipped := st.stages_skipped ++ [stage.value] },
        ⟨StageStatus.skipped, Option.none, Option.some e⟩) := by
  simp [executeStage, he]

theorem executeStage_record_of_ok (st : PipelineState)
    (stage : PipelineStage) (f : PipelineState → Except String StageValue)
    (c : Bool) (st2 : PipelineState) (r : StageRecord) (v : StageValue)
    (h : executeStage st stage f c = Except.ok (st2, r))
    (hv : f st = Except.ok v) :
    r = ⟨StageStatus.completed, Option.some v, Option.none⟩ := by
  unfold executeStage at h
  rw [hv] at h
  cases h
  rfl

theorem executeStage_record_of_error_conditional (st : PipelineState)
    (stage : PipelineStage) (f : PipelineState → Except String StageValue)
    (st2 : PipelineState) (r : StageRecord) (e : String)
    (h : executeStage st stage f true = Except.ok (st2, r))
    (he : f st = Except.error e) :
    r = ⟨StageStatus.skipped, Option.none, Option.some e⟩ := by
  unfold executeStage at h
  rw [he] at h
  simp only [if_true] at h
  cases h
  rfl

/-- The `.value` names of the six stages the driver loop executes. -/
def middleStageNames : List String :=
  ["pdf_analysis", "ocr_processing", "document_parsing",
   "entity_extraction", "form_filling", "pdf_generation"]

theorem executeStage_completed_invariant (st : PipelineState)
    (stage : PipelineStage) (f : PipelineState → Except String StageValue)
    (c : Bool) (st2 : PipelineState) (r : StageRecord) (n : Nat)
    (h : executeStage st stage f c = Except.ok (st2, r))
    (hlen : st.stages_completed.length ≤ n)
    (hmem : ∀ x ∈ st.stages_completed, x ∈ middleStageNames)
    (hstage : stage.value ∈ middleStageNames) :
    st2.stages_completed.length ≤ n + 1 ∧
      ∀ x ∈ st2.stages_completed, x ∈ middleStageNames := by
  rcases executeStage_completed_shape _ _ _ _ _ _ h with heq | heq <;>
    rw [heq]
  · exact ⟨Nat.le_succ_of_le hlen, hmem⟩
  · constructor
    · rw [List.length_append]
      simpa using hlen
    · intro x hx
      rcases List.mem_append.mp hx with h1 | h1
      · exact hmem x h1
      · rw [List.mem_singleton.mp h1]
        exact hstage

/-! ## Claim C9: success rate never reaches 1.0 -/

/-- C9: on any successful run the summary divides the completed-stage
count by the full 8-member stage enumeration, yet only the six middle
stages can ever enter stages_completed (Initialization and Completion
never do), so success_rate is at most 6/8 = 0.75 and never 1.0. -/
theorem pipeline_success_rate_capped (env : OrchestratorEnv)
    (r : PipelineResults) (h : runPipeline env = Except.ok r) :
    r.summary.success_rate =
      (r.summary.completed_stages : ℚ) / (allPipelineStages.length : ℚ) ∧
    allPipelineStages.length = 8 ∧
    r.summary.completed_stages ≤ 6 ∧
    r.summary.success_rate ≤ 3/4 ∧
    "initialization" ∉ r.state.stages_completed ∧
    "completion" ∉ r.state.stages_completed := by
  unfold runPipeline at h
  cases h1 : executeStage ⟨[], [], [], []⟩ PipelineStage.pdfAnalysis
      (fun _ => stagePdfAnalysis env) false with
  | error f => rw [h1] at h; cases h
  | ok p1 =>
  obtain ⟨st1, r1⟩ := p1
  rw [h1] at h
  simp only [] at h
  cases h2 : executeStage st1 PipelineStage.ocrProcessing
      (fun st => stageOcrProcessing env st.stage_results) true with
  | error f => rw [h2] at h; cases h
  | ok p2 =>
  obtain ⟨st2, r2⟩ := p2
  rw [h2] at h
  simp only [] at h
  cases h3 : executeStage st2 PipelineStage.documentParsing
      (fun _ => stageDocumentParsing env) false with
  | error f => rw [h3] at h; cases h
  | ok p3 =>
  obtain ⟨st3, r3⟩ := p3
  rw [h3] at h
  simp only [] at h
  cases h4 : executeStage st3 PipelineStage.entityExtraction
      (fun st => stageEntityExtraction env st.stage_results) false with
  | error f => rw [h4] at h; cases h
  | ok p4 =>
  obtain ⟨st4, r4⟩ := p4
  rw [h4] at h
  simp only [] at h
  cases h5 : executeStage st4 PipelineStage.formFilling
      (fun st => stageFormFilling env st.stage_results) false with
  | error f => rw [h5] at h; cases h
  | ok p5 =>
  obtain ⟨st5, r5⟩ := p5
  rw [h5] at h
  simp only [] at h
  cases h6 : executeStage st5 PipelineStage.pdfGeneration
      (fun st => stagePdfGenerationValue env st.stage_results) false with
  | error f => rw [h6] at h; cases h
  | ok p6 =>
  obtain ⟨st6, r6⟩ := p6
  rw [h6] at h
  simp only [] at h
  cases h
  have i0 : (⟨[], [], [], []⟩ : PipelineState).stages_completed.length ≤ 0 ∧
      ∀ x ∈ (⟨[], [], [], []⟩ : PipelineState).stages_completed,
        x ∈ middleStageNames := by
    constructor
    · simp
    · intro x hx
      simp at hx
  have i1 := executeStage_completed_invariant _ _ _ _ _ _ 0 h1 i0.1 i0.2
    (by decide)
  have i2 := executeStage_completed_invariant _ _ _ _ _ _ 1 h2 i1.1 i1.2
    (by decide)
  have i3 := executeStage_completed_invariant _ _ _ _ _ _ 2 h3 i2.1 i2.2
    (by decide)
  have i4 := executeStage_completed_invariant _ _ _ _ _ _ 3 h4 i3.1 i3.2
    (by decide)
  have i5 := executeStage_completed_invariant _ _ _ _ _ _ 4 h5 i4.1 i4.2
    (by decide)
  have i6 := executeStage_completed_invariant _ _ _ _ _ _ 5 h6 i5.1 i5.2
    (by decide)
  refine ⟨rfl, rfl, i6.1, ?_, ?_, ?_⟩
  · show (st6.stages_completed.length : ℚ) /
        (allPipelineStages.length : ℚ) ≤ 3/4
    have hlen : (st6.stages_completed.length : ℚ) ≤ 6 := by
      exact_mod_cast i6.1
    have h8 : (allPipelineStages.length : ℚ) = 8 := by norm_num [allPipelineStages]
    rw [h8]
    linarith
  · intro hin
    have := i6.2 _ hin
    simp [middleStageNames] at this
  · intro hin
    have := i6.2 _ hin
    simp [middleStageNames] at this

/-- A fully successful environment: a native PDF (so OCR is skipped),
LlamaParse content, one extracted entity, the three-field schema, and no
template so the simple data document is written. -/
def happyEnv : OrchestratorEnv :=
  { docId := "doc"
    pdfInfo := Except.ok (2, true)
    ocrAvailable := false
    ocrText := Except.error "unused"
    parsingAvailable := true
    llamaparse := Except.ok "md content"
    pdfplumberText := Except.error "plumber failed"
    llmAvailable := true
    extractEntities := fun _ => Except.ok [("s1", PyVal.str "val")]
    formFillerAvailable := true
    loadSchema := Except.ok c1schema
    oracle := plainOracle
    timestamp := "ts"
    pdfGen := ⟨false, false, Except.error "no template", Except.ok (),
      Except.ok ()⟩ }

/-- The results of the happy-path run, extracted for the witnesses. -/
def happyResults : PipelineResults :=
  (runPipeline happyEnv).toOption.getD
    ⟨⟨[], [], [], []⟩, ⟨0, 0, 0, 0, 0, []⟩⟩

/-! ## Claim C5: conditional skip and native-PDF OCR skip -/

/-- C5: the driver records a Skipped result (with the exception message
as the reason) and continues, never raising, whenever a conditional
stage's function raises; and on a run whose PDF analysis reports a native
PDF, the OCR StageResult stored by a completed run is Skipped with the
deliberate "PDF has native text, OCR not needed" reason. -/
theorem conditional_stage_skipped_and_run_continues
    (st : PipelineState) (stage : PipelineStage)
    (f : PipelineState → Except String StageValue) (e : String)
    (hf : f st = Except.error e)
    (env : OrchestratorEnv) (r : PipelineResults) (n : Nat)
    (hnative : env.pdfInfo = Except.ok (n, true))
    (hrun : runPipeline env = Except.ok r) :
    executeStage st stage f true =
      Except.ok ({ st with
        stage_results := dictSet st.stage_results stage
          ⟨StageStatus.skipped, Option.none, Option.some e⟩,
        stages_skipped := st.stages_skipped ++ [stage.value] },
        ⟨StageStatus.skipped, Option.none, Option.some e⟩) ∧
    dictGet r.state.stage_results PipelineStage.ocrProcessing =
      Option.some ⟨StageStatus.skipped, Option.none,
        Option.some "PDF has native text, OCR not needed"⟩ := by
  refine ⟨executeStage_of_fun_error_conditional st stage f e hf, ?_⟩
  have hA : stagePdfAnalysis env =
      Except.ok (StageValue.pdfAnalysis n true false) := by
    simp [stagePdfAnalysis, hnative]
  unfold runPipeline at hrun
  cases h1 : executeStage ⟨[], [], [], []⟩ PipelineStage.pdfAnalysis
      (fun _ => stagePdfAnalysis env) false with
  | error fl => rw [h1] at hrun; cases hrun
  | ok p1 =>
  obtain ⟨st1, r1⟩ := p1
  rw [h1] at hrun
  simp only [] at hrun
  have hres1 := executeStage_results_shape _ _ _ _ _ _ h1
  have hrec1 := executeStage_record_of_ok _ _ _ _ _ _ _ h1 hA
  cases h2 : executeStage st1 PipelineStage.ocrProcessing
      (fun st => stageOcrProcessing env st.stage_results) true with
  | error fl => rw [h2] at hrun; cases hrun
  | ok p2 =>
  obtain ⟨st2, r2⟩ := p2
  rw [h2] at hrun
  simp only [] at hrun
  have hOcrf : stageOcrProcessing env st1.stage_results =
      Except.error "PDF has native text, OCR not needed" := by
    rw [hres1, hrec1]
    rfl
  have hrec2 := executeStage_record_of_error_conditional _ _ _ _ _ _ h2 hOcrf
  have hres2 := executeStage_results_shape _ _ _ _ _ _ h2
  cases h3 : executeStage st2 PipelineStage.documentParsing
      (fun _ => stageDocumentParsing env) false with
  | error fl => rw [h3] at hrun; cases hrun
  | ok p3 =>
  obtain ⟨st3, r3⟩ := p3
  rw [h3] at hrun
  simp only [] at hrun
  cases h4 : executeStage st3 PipelineStage.entityExtraction
      (fun st => stageEntityExtraction env st.stage_results) false with
  | error fl => rw [h4] at hrun; cases hrun
  | ok p4 =>
  obtain ⟨st4, r4⟩ := p4
  rw [h4] at hrun
  simp only [] at hrun
  cases h5 : executeStage st4 PipelineStage.formFilling
      (fun st => stageFormFilling env st.stage_results) false with
  | error fl => rw [h5] at hrun; cases hrun
  | ok p5 =>
  obtain ⟨st5, r5⟩ := p5
  rw [h5] at hrun
  simp only [] at hrun
  cases h6 : executeStage st5 PipelineStage.pdfGeneration
      (fun st => stagePdfGenerationValue env st.stage_results) false with
  | error fl => rw [h6] at hrun; cases hrun
  | ok p6 =>
  obtain ⟨st6, r6⟩ := p6
  rw [h6] at hrun
  simp only [] at hrun
  cases hrun
  have e3 := executeStage_results_shape _ _ _ _ _ _ h3
  have e4 := executeStage_results_shape _ _ _ _ _ _ h4
  have e5 := executeStage_results_shape _ _ _ _ _ _ h5
  have e6 := executeStage_results_shape _ _ _ _ _ _ h6
  show dictGet st6.stage_results PipelineStage.ocrProcessing = _
  rw [e6, dictGet_dictSet_ne _ _ _ _ (by decide),
    e5, dictGet_dictSet_ne _ _ _ _ (by decide),
    e4, dictGet_dictSet_ne _ _ _ _ (by decide),
    e3, dictGet_dictSet_ne _ _ _ _ (by decide),
    hres2, dictGet_dictSet_self, hrec2]

/-- C5 witness: the skip theorem at the happy-path environment (whose
PDF is native) and a concrete conditional-stage failure. -/
theorem conditional_stage_skipped_and_run_continues_witness :
    executeStage ⟨[], [], [], []⟩ PipelineStage.ocrProcessing
        (fun _ => Except.error "signal") true =
      Except.ok ({ (⟨[], [], [], []⟩ : PipelineState) with
        stage_results := dictSet [] PipelineStage.ocrProcessing
          ⟨StageStatus.skipped, Option.none, Option.some "signal"⟩,
        stages_skipped := [] ++ [PipelineStage.ocrProcessing.value] },
        ⟨StageStatus.skipped, Option.none, Option.some "signal"⟩) ∧
    dictGet happyResults.state.stage_results PipelineStage.ocrProcessing =
      Option.some ⟨StageStatus.skipped, Option.none,
        Option.some "PDF has native text, OCR not needed"⟩ :=
  conditional_stage_skipped_and_run_continues ⟨[], [], [], []⟩
    PipelineStage.ocrProcessing (fun _ => Except.error "signal") "signal"
    rfl happyEnv happyResults 2 rfl rfl

/-- C9 witness: the capped-success-rate theorem at the fully successful
concrete run. -/
theorem pipeline_success_rate_capped_witness :
    happyResults.summary.success_rate =
      (happyResults.summary.completed_stages : ℚ) /
        (allPipelineStages.length : ℚ) ∧
    allPipelineStages.length = 8 ∧
    happyResults.summary.completed_stages ≤ 6 ∧
    happyResults.summary.success_rate ≤ 3/4 ∧
    "initialization" ∉ happyResults.state.stages_completed ∧
    "completion" ∉ happyResults.state.stages_completed :=
  pipeline_success_rate_capped happyEnv happyResults rfl

/-! ## Claim C6: hybrid overlay on zero field-name matches -/

/-- C6: with a template present, a tier-1 template fill that found at
least one interactive field but filled none of them, and a working hybrid
overlay, the record stored by the PdfGeneration stage carries the
generation_method "hybrid_overlay", not "form_filling". -/
theorem pdf_generation_hybrid_on_zero_matches (env : PdfGenEnv)
    (pf : PopulatedForm) (docId : String) (stats : FillStats)
    (htempl : env.userTemplate = true ∨ env.defaultTemplate = true)
    (hfill : env.templateFill = Except.ok stats)
    (hzero : stats.fields_filled = 0) (hfound : 0 < stats.fields_found)
    (hhybrid : env.hybridWrite = Except.ok ()) :
    (stagePdfGeneration env (Option.some pf) docId).map
        PdfGenRecord.generation_method =
      Except.ok (Option.some "hybrid_overlay") := by
  by_cases hu : env.userTemplate = true
  · simp [stagePdfGeneration, hu, hfill, hzero, hfound, generateHybridPdf,
      hhybrid, Except.map]
  · have hd : env.defaultTemplate = true := htempl.resolve_left hu
    simp [stagePdfGeneration, hu, hd, hfill, hzero, hfound,
      generateHybridPdf, hhybrid, Except.map]

/-- An empty populated form used by concrete orchestrator witnesses. -/
def emptyPopulatedForm : PopulatedForm :=
  ⟨⟨"", "", "", 0, 0, [], [], 0, Option.none, Option.none⟩, [], Option.none⟩

/-- PDF-generation environment for the C6 witness: a user template whose
four fields all mismatch by name. -/
def c6env : PdfGenEnv :=
  ⟨true, false, Except.ok ⟨4, 0⟩, Except.ok (), Except.ok ()⟩

/-- C6 witness: the fallback theorem at the concrete mismatching
template. -/
theorem pdf_generation_hybrid_on_zero_matches_witness :
    (stagePdfGeneration c6env (Option.some emptyPopulatedForm) "doc").map
        PdfGenRecord.generation_method =
      Except.ok (Option.some "hybrid_overlay") :=
  pdf_generation_hybrid_on_zero_matches c6env emptyPopulatedForm "doc"
    ⟨4, 0⟩ (Or.inl rfl) rfl rfl (by decide) rfl

/-! ## Claim C4: up-front schema validation -/

/-- The structural defects the claim enumerates: a missing required
top-level key, a field mapping without source_field, or a simple
conditional rule whose condition references a field absent from
field_mappings. -/
def DefectiveSchema (schema : FormSchema) : Prop :=
  schema.schema_name = Option.none ∨
  schema.field_mappings = Option.none ∨
  (∃ p ∈ schema.field_mappings.getD [], p.2.source_field = Option.none) ∨
  (∃ cr, schema.conditional_rules = Option.some cr ∧
    ∃ r ∈ cr.simple_rules, ∃ c, r.condition = Option.some c ∧
      ∃ f, c.field = Option.some f ∧
        dictHas (schema.field_mappings.getD []) f = false)

theorem checkMappings_error_of_defect (l : List (String × FieldMapping))
    (h : ∃ p ∈ l, p.2.source_field = Option.none) :
    ∃ e, checkMappings l = Except.error e := by
  induction l with
  | nil =>
    obtain ⟨p, hp, _⟩ := h
    cases hp
  | cons q rest ih =>
    obtain ⟨name, m⟩ := q
    by_cases hq : m.source_field.isNone
    · exact ⟨"Mapping for field " ++ name ++ " missing source_field",
        by simp [checkMappings, hq]⟩
    · obtain ⟨p, hp, hsrc⟩ := h
      rcases List.mem_cons.mp hp with heq | hmem
      · exfalso
        apply hq
        rw [heq] at hsrc
        have hm : m.source_field = Option.none := hsrc
        simp [hm]
      · obtain ⟨e, he⟩ := ih ⟨p, hmem, hsrc⟩
        exact ⟨e, by simp [checkMappings, hq, he]⟩

theorem checkSimpleRules_error_of_defect
    (fm : List (String × FieldMapping)) (rules : List SimpleRule)
    (h : ∃ r ∈ rules, ∃ c, r.condition = Option.some c ∧
      ∃ f, c.field = Option.some f ∧ dictHas fm f = false) :
    ∀ i, ∃ e, checkSimpleRules fm i rules = Except.error e := by
  induction rules with
  | nil =>
    obtain ⟨r, hr, _⟩ := h
    cases hr
  | cons r rest ih =>
    intro i
    obtain ⟨r2, hr2, c2, hc2, f2, hf2, hhas2⟩ := h
    cases hcond : r.condition with
    | none =>
      exact ⟨"Simple rule " ++ toString i ++ " missing condition",
        by simp [checkSimpleRules, hcond]⟩
    | some c =>
      by_cases ha : r.actions.isNone
      · exact ⟨"Simple rule " ++ toString i ++ " missing actions",
          by simp [checkSimpleRules, hcond, ha]⟩
      · cases hcf : c.field with
        | none =>
          rcases List.mem_cons.mp hr2 with heq | hmem
          · exfalso
            rw [heq] at hc2
            rw [hcond] at hc2
            cases hc2
            rw [hcf] at hf2
            cases hf2
          · obtain ⟨e, he⟩ := ih ⟨r2, hmem, c2, hc2, f2, hf2, hhas2⟩ (i + 1)
            exact ⟨e, by simp [checkSimpleRules, hcond, ha, hcf, he]⟩
        | some f =>
          by_cases hmem2 : dictHas fm f = true
          · rcases List.mem_cons.mp hr2 with heq | hmem
            · exfalso
              rw [heq] at hc2
              rw [hcond] at hc2
              cases hc2
              rw [hcf] at hf2
              cases hf2
              rw [hmem2] at hhas2
              cases hhas2
            · obtain ⟨e, he⟩ := ih ⟨r2, hmem, c2, hc2, f2, hf2, hhas2⟩ (i + 1)
              exact ⟨e, by simp [checkSimpleRules, hcond, ha, hcf, hmem2, he]⟩
          · exact ⟨"Simple rule " ++ toString i ++
              " references unknown field: " ++ f,
              by simp [checkSimpleRules, hcond, ha, hcf, hmem2]⟩

theorem validateSchema_error_of_defect (schema : FormSchema)
    (h : DefectiveSchema schema) :
    ∃ e, validateSchema schema = Except.error e := by
  unfold validateSchema
  by_cases h1 : schema.schema_name.isNone
  · exact ⟨_, by rw [if_pos h1]⟩
  · rw [if_neg h1]
    by_cases h2 : schema.field_mappings.isNone
    · exact ⟨_, by rw [if_pos h2]⟩
    · rw [if_neg h2]
      rcases h with hname | hfm | hmap | hrules
      · exact absurd (by rw [hname]; rfl) h1
      · exact absurd (by rw [hfm]; rfl) h2
      · obtain ⟨e, he⟩ := checkMappings_error_of_defect _ hmap
        exact ⟨e, by rw [he]⟩
      · obtain ⟨cr, hcr, hdef⟩ := hrules
        cases hcm : checkMappings (schema.field_mappings.getD []) with
        | error e => exact ⟨e, rfl⟩
        | ok u =>
          cases u
          obtain ⟨e, he⟩ := checkSimpleRules_error_of_defect _ _ hdef 0
          refine ⟨"Invalid conditional rules: " ++ e, ?_⟩
          rw [hcr]
          show validateConditionalRules cr (schema.field_mappings.getD []) = _
          unfold validateConditionalRules
          rw [he]

/-- C4: a schema defective in any of the enumerated ways makes
`populate_form` raise before any field population — the call never
produces a PopulatedForm (field population and rule application happen
only after `_validate_schema` returns). -/
theorem populate_form_rejects_defective_schema (o : ExternalOracle)
    (entities : List (String × PyVal)) (schema : FormSchema) (t : String)
    (h : DefectiveSchema schema) :
    (populateForm o entities schema t).isOk = false := by
  obtain ⟨e, he⟩ := validateSchema_error_of_defect schema h
  unfold populateForm
  rw [he]
  rfl

/-- Schema for the C4 witness: a simple rule referencing a field that is
not in field_mappings. -/
def c4schema : FormSchema :=
  ⟨Option.some "S", Option.none,
   Option.some [("f1", c1mapping "s1")], Option.none,
   Option.some ⟨[⟨Option.some ⟨Option.some "equals", Option.some "ghost",
     PyVal.str "x"⟩, Option.some []⟩], []⟩⟩

/-- C4 witness: the up-front-validation theorem at a schema whose rule
references the unknown field "ghost". -/
theorem populate_form_rejects_defective_schema_witness :
    (populateForm plainOracle [] c4schema "t").isOk = false :=
  populate_form_rejects_defective_schema plainOracle [] c4schema "t"
    (Or.inr (Or.inr (Or.inr
      ⟨⟨[⟨Option.some ⟨Option.some "equals", Option.some "ghost",
          PyVal.str "x"⟩, Option.some []⟩], []⟩, rfl,
        ⟨Option.some ⟨Option.some "equals", Option.some "ghost",
          PyVal.str "x"⟩, Option.some []⟩, by simp,
        ⟨Option.some "equals", Option.some "ghost", PyVal.str "x"⟩, rfl,
        "ghost", rfl, by decide⟩)))

/-- Form data for the C10 witness. -/
def c10data : List (String × FieldData) :=
  [("status", ⟨PyVal.str "APPROVED", "s", 0, false, "string", false, false⟩)]

/-- Rule for the C10 witness: equals comparison differing only in case. -/
def c10rule : SimpleRule :=
  ⟨Option.some ⟨Option.some "equals", Option.some "status",
    PyVal.str "approved"⟩, Option.some []⟩

/-- C10 witness: the equality-operator theorem at a concrete rule whose
expected value differs from the stored value only by case. -/
theorem simple_rule_equality_case_insensitive_witness :
    evaluateSimpleRule plainOracle c10rule c10data = true ↔
      (pyStr (PyVal.str "APPROVED")).toLower =
        (pyStr (PyVal.str "approved")).toLower :=
  (simple_rule_equality_case_insensitive plainOracle c10rule c10data
    ⟨Option.some "equals", Option.some "status", PyVal.str "approved"⟩
    "status"
    ⟨PyVal.str "APPROVED", "s", 0, false, "string", false, false⟩
    rfl rfl (by decide) rfl).1 rfl

/-! ## Claim C2: required fields with defaults vs missing_fields -/

theorem isPopulatedValue_of_ne (d : PyVal) (h1 : d ≠ PyVal.none)
    (h2 : d ≠ PyVal.str "") : isPopulatedValue d = true := by
  cases d with
  | none => exact absurd rfl h1
  | str s =>
    have hs : s ≠ "" := fun he => h2 (by rw [he])
    simp [isPopulatedValue, hs]
  | int n => rfl
  | bool b => rfl
  | list xs => rfl

theorem isPopulatedValue_substituteDefault (v : PyVal) (d : PyVal)
    (hd1 : d ≠ PyVal.none) (hd2 : d ≠ PyVal.str "") :
    isPopulatedValue (substituteDefault v (Option.some d)) = true := by
  by_cases hv : isNoneOrEmptyStr v = true
  · have hsub : substituteDefault v (Option.some d) = d := by
      cases d with
      | none => exact absurd rfl hd1
      | str s => simp [substituteDefault, hv]
      | int n => simp [substituteDefault, hv]
      | bool b => simp [substituteDefault, hv]
      | list xs => simp [substituteDefault, hv]
    rw [hsub]
    exact isPopulatedValue_of_ne d hd1 hd2
  · have hv2 : isNoneOrEmptyStr v = false := by simpa using hv
    have hsub : substituteDefault v (Option.some d) = v := by
      simp [substituteDefault, hv2]
    rw [hsub]
    cases v with
    | none => simp [isNoneOrEmptyStr] at hv2
    | str s =>
      simp [isNoneOrEmptyStr] at hv2
      simp [isPopulatedValue, hv2]
    | int n => rfl
    | bool b => rfl
    | list xs => rfl

theorem populateField_populated_iff (o : ExternalOracle)
    (entities : List (String × PyVal)) (m : FieldMapping) (src : String)
    (hsrc : m.source_field = Option.some src) (hsrcne : src ≠ "")
    (d : PyVal)
    (hd : m.default_value = Option.some d) (hd1 : d ≠ PyVal.none)
    (hd2 : d ≠ PyVal.str "") :
    isPopulatedValue (populateField o entities m).1 =
      !validationRejected o entities m := by
  unfold populateField validationRejected
  rw [hsrc]
  simp only [if_neg hsrcne]
  have hsub : ∀ v : PyVal,
      isPopulatedValue (substituteDefault v (Option.some d)) = true :=
    fun v => isPopulatedValue_substituteDefault v d hd1 hd2
  rw [hd]
  generalize transformedEntityValue entities m src = v1
  cases v1 with
  | none => simp [hd, hsub]
  | str s =>
    cases hdv : m.validation with
    | none => simp [hdv, hd, hsub]
    | some vc =>
      cases hval : validateFieldValue o (PyVal.str s) vc with
      | true => simp [hdv, hval, hd, hsub]
      | false => simp [hdv, hval, isPopulatedValue]
  | int k =>
    cases hdv : m.validation with
    | none => simp [hdv, hd, hsub]
    | some vc =>
      cases hval : validateFieldValue o (PyVal.int k) vc with
      | true => simp [hdv, hval, hd, hsub]
      | false => simp [hdv, hval, isPopulatedValue]
  | bool b =>
    cases hdv : m.validation with
    | none => simp [hdv, hd, hsub]
    | some vc =>
      cases hval : validateFieldValue o (PyVal.bool b) vc with
      | true => simp [hdv, hval, hd, hsub]
      | false => simp [hdv, hval, isPopulatedValue]
  | list xs =>
    cases hdv : m.validation with
    | none => simp [hdv, hd, hsub]
    | some vc =>
      cases hval : validateFieldValue o (PyVal.list xs) vc with
      | true => simp [hdv, hval, hd, hsub]
      | false => simp [hdv, hval, isPopulatedValue]

theorem basePopulateStep_missing_shape (o : ExternalOracle)
    (entities : List (String × PyVal)) (st : FormState)
    (p : String × FieldMapping) :
    (basePopulateStep o entities st p).missing_fields = st.missing_fields ∨
    (basePopulateStep o entities st p).missing_fields =
      st.missing_fields ++ [p.1] := by
  unfold basePopulateStep
  by_cases h1 : isPopulatedValue (populateField o entities p.2).1 = true
  · left
    simp [h1]
  · have h2 : isPopulatedValue (populateField o entities p.2).1 = false := by
      simpa using h1
    by_cases h3 : p.2.required = true
    · right
      simp [h2, h3]
    · have h4 : p.2.required = false := by simpa using h3
      left
      simp [h2, h4]

theorem basePopulateStep_missing_self (o : ExternalOracle)
    (entities : List (String × PyVal)) (st : FormState) (name : String)
    (m : FieldMapping) :
    (basePopulateStep o entities st (name, m)).missing_fields =
      if isPopulatedValue (populateField o entities m).1 = true then
        st.missing_fields
      else if m.required = true then st.missing_fields ++ [name]
      else st.missing_fields := by
  unfold basePopulateStep
  by_cases h1 : isPopulatedValue (populateField o entities m).1 = true
  · simp [h1]
  · have h2 : isPopulatedValue (populateField o entities m).1 = false := by
      simpa using h1
    by_cases h3 : m.required = true
    · simp [h2, h3]
    · have h4 : m.required = false := by simpa using h3
      simp [h2, h4]

theorem basePop_missing_not_mem (o : ExternalOracle)
    (entities : List (String × PyVal)) (ms : List (String × FieldMapping))
    (x : String) (st : FormState) (hx : x ∉ ms.map Prod.fst) :
    x ∈ (ms.foldl (basePopulateStep o entities) st).missing_fields ↔
      x ∈ st.missing_fields := by
  revert hx
  induction ms generalizing st with
  | nil =>
    intro hx
    exact Iff.rfl
  | cons p rest ih =>
    intro hx
    simp only [List.map_cons, List.mem_cons, not_or] at hx
    simp only [List.foldl_cons]
    rw [ih _ hx.2]
    rcases basePopulateStep_missing_shape o entities st p with hs | hs
    · rw [hs]
    · rw [hs]
      simp [hx.1]

theorem mem_missing_basePopulate (o : ExternalOracle)
    (entities : List (String × PyVal)) (ms : List (String × FieldMapping))
    (name : String) (m : FieldMapping) (st : FormState)
    (hnodup : (ms.map Prod.fst).Nodup) (hmem : (name, m) ∈ ms)
    (hst : name ∉ st.missing_fields) :
    name ∈ (ms.foldl (basePopulateStep o entities) st).missing_fields ↔
      (m.required = true ∧
        isPopulatedValue (populateField o entities m).1 = false) := by
  revert hnodup hmem hst
  induction ms generalizing st with
  | nil =>
    intro _ hmem _
    cases hmem
  | cons p rest ih =>
    intro hnodup hmem hst
    rw [List.map_cons, List.nodup_cons] at hnodup
    rcases List.mem_cons.mp hmem with heq | hmemr
    · subst heq
      have hkeys : name ∉ rest.map Prod.fst := hnodup.1
      simp only [List.foldl_cons]
      rw [basePop_missing_not_mem o entities rest name _ hkeys]
      rw [basePopulateStep_missing_self]
      by_cases hpop : isPopulatedValue (populateField o entities m).1 = true
      · simp [hpop, hst]
      · have hpop2 :
            isPopulatedValue (populateField o entities m).1 = false := by
          simpa using hpop
        by_cases hreq : m.required = true
        · simp [hpop2, hreq]
        · have hreq2 : m.required = false := by simpa using hreq
          simp [hpop2, hreq2, hst]
    · have hpne : p.1 ≠ name := by
        intro hq
        apply hnodup.1
        rw [hq]
        exact List.mem_map.mpr ⟨(name, m), hmemr, rfl⟩
      simp only [List.foldl_cons]
      apply ih _ hnodup.2 hmemr
      rcases basePopulateStep_missing_shape o entities st p with hs | hs
      · rw [hs]
        exact hst
      · rw [hs]
        intro hmm
        rcases List.mem_append.mp hmm with hmm1 | hmm1
        · exact hst hmm1
        · exact hpne (List.mem_singleton.mp hmm1).symm

theorem checkMappings_ok_source (l : List (String × FieldMapping))
    (h : checkMappings l = Except.ok ()) :
    ∀ p ∈ l, p.2.source_field.isSome := by
  induction l with
  | nil =>
    intro p hp
    cases hp
  | cons q rest ih =>
    intro p hp
    obtain ⟨nm, mm⟩ := q
    by_cases hq : mm.source_field.isNone
    · simp [checkMappings, hq] at h
    · have h2 : checkMappings rest = Except.ok () := by
        simpa [checkMappings, hq] using h
      rcases List.mem_cons.mp hp with heq | hmem
      · rw [heq]
        cases hs : mm.source_field with
        | none => exact absurd (by rw [hs]; rfl) hq
        | some s => simp [hs]
      · exact ih h2 p hmem

theorem validateSchema_ok_mappings (schema : FormSchema)
    (h : validateSchema schema = Except.ok ()) :
    checkMappings (schema.field_mappings.getD []) = Except.ok () := by
  unfold validateSchema at h
  by_cases h1 : schema.schema_name.isNone
  · rw [if_pos h1] at h
    cases h
  · rw [if_neg h1] at h
    by_cases h2 : schema.field_mappings.isNone
    · rw [if_pos h2] at h
      cases h
    · rw [if_neg h2] at h
      cases hcm : checkMappings (schema.field_mappings.getD []) with
      | error e =>
        rw [hcm] at h
        simp only [] at h
        exact h
      | ok u =>
        cases u
        rfl

/-- C2 (amended): for a schema without conditional_rules (and with the
dict-guaranteed distinct mapping names), a required field carrying a
truthy (non-empty) source_field and a non-None, non-empty-string
default_value appears in missing_fields exactly when its entity value is
present (non-None after transformation) and the mapping's validation
block exists and rejects it — the validation failure discards the value
before default substitution; with an absent or empty entity value the
default applies and the field is never missing.  (A mapping whose
source_field is the empty string is Python-falsy: `_populate_field`
early-returns (None, 0.0) for it and a required field is then always
missing, default or not.) -/
theorem required_default_missing_iff_validation (o : ExternalOracle)
    (entities : List (String × PyVal)) (schema : FormSchema) (t : String)
    (form : PopulatedForm) (name : String) (m : FieldMapping)
    (src : String) (d : PyVal)
    (hrules : schema.conditional_rules = Option.none)
    (hnodup : ((schema.field_mappings.getD []).map Prod.fst).Nodup)
    (hmem : (name, m) ∈ schema.field_mappings.getD [])
    (hreq : m.required = true)
    (hsrc : m.source_field = Option.some src) (hsrcne : src ≠ "")
    (hd : m.default_value = Option.some d) (hd1 : d ≠ PyVal.none)
    (hd2 : d ≠ PyVal.str "")
    (hok : populateForm o entities schema t = Except.ok form) :
    name ∈ form.form_metadata.missing_fields ↔
      validationRejected o entities m = true := by
  unfold populateForm at hok
  cases hv : validateSchema schema with
  | error e =>
    rw [hv] at hok
    cases hok
  | ok u =>
  cases u
  rw [hv] at hok
  simp only [] at hok
  rw [hrules] at hok
  simp only [] at hok
  cases hok
  show name ∈ ((schema.field_mappings.getD []).foldl
      (basePopulateStep o entities)
      ⟨[], 0, [], [], Option.none⟩).missing_fields ↔ _
  rw [mem_missing_basePopulate o entities _ name m _ hnodup hmem
    (List.not_mem_nil name)]
  rw [populateField_populated_iff o entities m src hsrc hsrcne d hd hd1 hd2]
  simp [hreq]

/-- Mapping for the C2 counterexample and witness: required, with a
min_length-5 validation block and a non-empty default. -/
def c2mapping : FieldMapping :=
  ⟨Option.some "s", true, "string", Option.none,
   Option.some ⟨Option.none, Option.some 5, Option.none, Option.none⟩,
   Option.some (PyVal.str "DEFAULT")⟩

/-- One-field schema for the C2 counterexample and witness. -/
def c2schema : FormSchema :=
  ⟨Option.some "S", Option.none, Option.some [("f", c2mapping)],
   Option.none, Option.none⟩

/-- C2 counterexample: the entity value "ab" fails the min_length-5
validation, the early return skips the default, and the required field
lands in missing_fields despite its non-null default_value — the claim
as stated is false. -/
theorem required_default_missing_cex :
    (populateForm plainOracle [("s", PyVal.str "ab")] c2schema
      "t").toOption.map (fun f => f.form_metadata.missing_fields) =
      Option.some ["f"] := by
  rfl

/-- The form produced for the C2 witness (no entity value at all). -/
def c2wform : PopulatedForm :=
  (populateForm plainOracle [] c2schema "t").toOption.getD
    emptyPopulatedForm

/-- C2 witness: the amended theorem at the concrete schema with an
absent entity value. -/
theorem required_default_missing_iff_validation_witness :
    "f" ∈ c2wform.form_metadata.missing_fields ↔
      validationRejected plainOracle [] c2mapping = true :=
  required_default_missing_iff_validation plainOracle [] c2schema "t"
    c2wform "f" c2mapping "s" (PyVal.str "DEFAULT") rfl (by decide)
    (List.mem_singleton_self _) rfl rfl (by decide) rfl (by simp)
    (by simp) rfl
